import Mathlib

/-!
Shallow embedding of the session-and-discovery layer of the
`representante_medico` repository (`authService.ts` and
`googleSheetsService.ts`).

JavaScript runtime values are modelled by `JsValue`; JS numbers are
modelled by `JsNumber` (a rational value, NaN, or a signed infinity).
Stateful code is modelled by explicit state passing over a `World`
record (localStorage, the gapi client token, the remote sheet contents,
plus instrumentation), with the outcomes of the remote transport calls
supplied by a read-only `Env` record of oracles.  Fallible code returns
`Except JsValue` — the error value is the JS value that was thrown.
-/

/-- JS numbers: a rational value, NaN, or a signed infinity.  (JS floats
are binary rationals, so every actual JS number value other than the
special ones is a rational; we use `Rat` as the carrier.) -/
inductive JsNumber where
  | nan
  | inf
  | negInf
  | val (q : Rat)
deriving DecidableEq, Repr

/-- Digit character for base-36 rendering (`0-9a-z`), as produced by
JS `Number.prototype.toString(36)`. -/
def base36Digit (n : Nat) : Char :=
  if n < 10 then Char.ofNat (48 + n) else Char.ofNat (87 + n)

/-- Digits of `n` in base 36, most significant first (empty for 0);
`fuel`-bounded structural recursion (`fuel = n` always suffices since
`n / 36 < n` for positive `n`). -/
def natToBase36Go (fuel : Nat) (n : Nat) : List Char :=
  match fuel with
  | 0 => []
  | fuel + 1 => if n = 0 then [] else natToBase36Go fuel (n / 36) ++ [base36Digit (n % 36)]

/-- JS `n.toString(36)` for a natural number. -/
def natToBase36 (n : Nat) : String :=
  if n = 0 then "0" else String.mk (natToBase36Go n n)

/-- Decimal digits of `n`, most significant first (empty for 0). -/
def natToDecGo (fuel : Nat) (n : Nat) : List Char :=
  match fuel with
  | 0 => []
  | fuel + 1 => if n = 0 then [] else natToDecGo fuel (n / 10) ++ [Char.ofNat (48 + n % 10)]

/-- JS `n.toString()` (decimal) for a natural number. -/
def natToString10 (n : Nat) : String :=
  if n = 0 then "0" else String.mk (natToDecGo n n)

/-- Least exponent `k < 60` such that `q * 10^k` is an integer
(equivalently, `q.den` divides `10^k`), when one exists (i.e. the
decimal expansion of `q` terminates within 60 digits). -/
def ratDecExp (q : Rat) : Option Nat :=
  (List.range 60).find? (fun k => 10 ^ k % q.den = 0)

/-- Pad a string on the left with `0` up to length `n`. -/
def padZeroLeft (n : Nat) (s : String) : String :=
  String.mk (List.replicate (n - s.length) '0') ++ s

/-- Decimal rendering of a terminating rational, as JS `String(x)`
renders a (non-huge, non-tiny) float: no trailing zeros, a leading `0`
before the point, `-` sign for negatives.  Rationals without a
terminating decimal expansion (which do not arise as JS floats) are
rendered as `"~"`; such values never satisfy the serialisation
round-trip hypothesis used below. -/
def ratToJsString (q : Rat) : String :=
  if q.num = 0 then "0"
  else
    match ratDecExp q with
    | none => "~"
    | some k =>
      let m : Int := q.num * Int.ofNat (10 ^ k / q.den)
      let s := padZeroLeft (k + 1) (toString m.natAbs)
      let body :=
        if k = 0 then s
        else String.mk (s.toList.take (s.length - k)) ++ "." ++
             String.mk (s.toList.drop (s.length - k))
      (if q.num < 0 then "-" else "") ++ body

/-- JS `String(x)` for a number. -/
def jsNumToString : JsNumber → String
  | .nan => "NaN"
  | .inf => "Infinity"
  | .negInf => "-Infinity"
  | .val q => ratToJsString q

/-- JS runtime values (the fragment needed by this layer: no arrays,
functions or symbols flow into the error normaliser or the data rows). -/
inductive JsValue where
  | vUndefined
  | vNull
  | vBool (b : Bool)
  | vNum (x : JsNumber)
  | vStr (s : String)
  | vObj (fields : List (String × JsValue))

/-- JS truthiness. -/
def jsTruthy : JsValue → Bool
  | .vUndefined => false
  | .vNull => false
  | .vBool b => b
  | .vNum .nan => false
  | .vNum (.val q) => q.num ≠ 0
  | .vNum _ => true
  | .vStr s => s ≠ ""
  | .vObj _ => true

/-- JS `typeof`. -/
def jsTypeof : JsValue → String
  | .vUndefined => "undefined"
  | .vNull => "object"
  | .vBool _ => "boolean"
  | .vNum _ => "number"
  | .vStr _ => "string"
  | .vObj _ => "object"

/-- JS `String(x)` default conversion (objects render as
`[object Object]`, matching `Object.prototype.toString`). -/
def jsToString : JsValue → String
  | .vUndefined => "undefined"
  | .vNull => "null"
  | .vBool true => "true"
  | .vBool false => "false"
  | .vNum x => jsNumToString x
  | .vStr s => s
  | .vObj _ => "[object Object]"

/-- First binding of key `k` in an object's field list. -/
def lookupField (fs : List (String × JsValue)) (k : String) : Option JsValue :=
  (fs.find? (fun p => p.1 = k)).map (fun p => p.2)

/-- JS `k in v` (only ever used on values known to be objects). -/
def hasField (v : JsValue) (k : String) : Bool :=
  match v with
  | .vObj fs => (lookupField fs k).isSome
  | _ => false

/-- A JS `Error` object carrying `message` (the only property this
layer ever reads back from a thrown `new Error(m)`). -/
def jsError (m : String) : JsValue :=
  .vObj [("message", .vStr m)]

/-- JS property access `v.k`: throws a TypeError on `null`/`undefined`,
yields `undefined` for our keys on other primitives, looks up the key
on objects. -/
def propGet (v : JsValue) (k : String) : Except JsValue JsValue :=
  match v with
  | .vNull => .error (jsError ("Cannot read properties of null (reading " ++ k ++ ")"))
  | .vUndefined => .error (jsError ("Cannot read properties of undefined (reading " ++ k ++ ")"))
  | .vObj fs => .ok ((lookupField fs k).getD .vUndefined)
  | _ => .ok .vUndefined

/-- Steps (2)-(4) of `extractErrorMessage`: a string-valued `message`
property, else a string-valued `statusText` property, else the default
string conversion.  (`fs` is the field list of the object `e`.) -/
def messageFallback (fs : List (String × JsValue)) (e : JsValue) : Except JsValue JsValue :=
  match lookupField fs "message" with
  | some (.vStr s) => .ok (.vStr s)
  | _ =>
    match lookupField fs "statusText" with
    | some (.vStr s) => .ok (.vStr s)
    | _ => .ok (.vStr (jsToString e))

/-- `extractErrorMessage` from `googleSheetsService.ts`, translated
statement by statement.  The result is the JS value the function
returns (the code can return a non-string when `result.error.message`
is a truthy non-string), and `.error` is the JS exception it throws
(property access on a `null`/`undefined` `result.error`). -/
def extractErrorMessage (e : JsValue) : Except JsValue JsValue :=
  if ¬ jsTruthy e ∨ jsTypeof e ≠ "object" then .ok (.vStr (jsToString e))
  else
    match e with
    | .vObj fs =>
      match lookupField fs "result" with
      | some r =>
        if jsTruthy r ∧ jsTypeof r = "object" ∧ hasField r "error" then
          match propGet r "error" with
          | .error t => .error t
          | .ok gapiError =>
            match propGet gapiError "message" with
            | .error t => .error t
            | .ok m => if jsTruthy m then .ok m else messageFallback fs e
        else messageFallback fs e
      | none => messageFallback fs e
    | _ => .ok (.vStr (jsToString e))

/-- Modelled from the spec's precedence wording for the error
normaliser (claim C7 / spec §4.1): (1) the nested `result.error.message`
when the value matches the known remote-API error envelope (an object
whose `result` is an object whose `error` is an object carrying a
non-empty string `message`); else (2) a string-valued `message` field;
else (3) a string-valued `statusText` field; else (4) the default
string conversion.  This is the SPEC-side definition, to be compared
with the source-side `extractErrorMessage`. -/
def envelopeMessage (v : JsValue) : Option String :=
  match v with
  | .vObj fs =>
    match lookupField fs "result" with
    | some (.vObj rs) =>
      match lookupField rs "error" with
      | some (.vObj es) =>
        match lookupField es "message" with
        | some (.vStr m) => if m = "" then none else some m
        | _ => none
      | _ => none
    | _ => none
  | _ => none

/-- Spec-side step (2): a string-valued `message` field of an object. -/
def messageField (v : JsValue) : Option String :=
  match v with
  | .vObj fs =>
    match lookupField fs "message" with
    | some (.vStr s) => some s
    | _ => none
  | _ => none

/-- Spec-side step (3): a string-valued `statusText` field of an object. -/
def statusTextField (v : JsValue) : Option String :=
  match v with
  | .vObj fs =>
    match lookupField fs "statusText" with
    | some (.vStr s) => some s
    | _ => none
  | _ => none

/-- Spec-side steps (2)-(4) of the precedence: a string-valued
`message` field, else a string-valued `statusText` field, else the
default string conversion. -/
def specFallbackMessage (v : JsValue) : String :=
  match messageField v with
  | some m => m
  | none =>
    match statusTextField v with
    | some m => m
    | none => jsToString v

/-- Spec-side error normaliser assembled from the four precedence steps
of the claim. -/
def specExtractMessage (v : JsValue) : String :=
  match envelopeMessage v with
  | some m => m
  | none => specFallbackMessage v

/-- Inputs on which the source deviates from the string-valued
precedence reading: the envelope check of the code passes but
`result.error` is `null`/`undefined` (property access throws), or the
truthy `result.error.message` it would return is not a string. -/
def envelopeHazard (v : JsValue) : Bool :=
  match v with
  | .vObj fs =>
    match lookupField fs "result" with
    | some r =>
      if jsTruthy r ∧ jsTypeof r = "object" ∧ hasField r "error" then
        match propGet r "error" with
        | .error _ => true
        | .ok g =>
          match g with
          | .vNull => true
          | .vUndefined => true
          | _ =>
            match propGet g "message" with
            | .error _ => true
            | .ok m => jsTruthy m && (match m with | .vStr _ => false | _ => true)
      else false
    | none => false
  | _ => false

/-- Whitespace characters skipped by JS `parseInt`/`parseFloat`. -/
def isWsChar (c : Char) : Bool :=
  c = ' ' ∨ c = '\t' ∨ c = '\n' ∨ c = '\r'

/-- Value of a list of decimal digit characters. -/
def digitsToNat (ds : List Char) : Nat :=
  ds.foldl (fun a c => a * 10 + (c.toNat - 48)) 0

/-- JS `parseInt(s, 10)`: skip whitespace, optional sign, leading
decimal digits; `none` models NaN (no digits). -/
def parseIntJs (s : String) : Option Int :=
  let cs := s.toList.dropWhile isWsChar
  let (neg, cs') :=
    match cs with
    | '-' :: rest => (true, rest)
    | '+' :: rest => (false, rest)
    | _ => (false, cs)
  let ds := cs'.takeWhile Char.isDigit
  if ds.isEmpty then none
  else some (if neg then -(digitsToNat ds : Int) else (digitsToNat ds : Int))

/-- Exponent part of a JS float literal: `e`/`E`, optional sign,
digits.  Returns the exponent to apply, or 0 when the exponent part is
absent or incomplete (JS `parseFloat` backtracks over an incomplete
exponent). -/
def parseFloatExp (cs : List Char) : Int :=
  match cs with
  | 'e' :: rest | 'E' :: rest =>
    let (neg, rest') :=
      match rest with
      | '-' :: r => (true, r)
      | '+' :: r => (false, r)
      | _ => (false, rest)
    let ds := rest'.takeWhile Char.isDigit
    if ds.isEmpty then 0
    else if neg then -(digitsToNat ds : Int) else (digitsToNat ds : Int)
  | _ => 0

/-- JS `parseFloat(s)`: skip whitespace, optional sign, `Infinity` or a
decimal mantissa with optional fraction and exponent; the longest valid
prefix is parsed and NaN is returned when there is none. -/
def jsParseFloat (s : String) : JsNumber :=
  let cs := s.toList.dropWhile isWsChar
  let (neg, cs') :=
    match cs with
    | '-' :: rest => (true, rest)
    | '+' :: rest => (false, rest)
    | _ => (false, cs)
  if cs'.take 8 = "Infinity".toList then
    if neg then .negInf else .inf
  else
    let intDs := cs'.takeWhile Char.isDigit
    let afterInt := cs'.drop intDs.length
    let (fracDs, afterFrac) :=
      match afterInt with
      | '.' :: rest => (rest.takeWhile Char.isDigit, (rest.dropWhile Char.isDigit))
      | _ => ([], afterInt)
    if intDs.isEmpty ∧ fracDs.isEmpty then .nan
    else
      let mantNum : Nat := digitsToNat (intDs ++ fracDs)
      let e : Int := parseFloatExp afterFrac - fracDs.length
      let mag : Rat :=
        if 0 ≤ e then Rat.divInt (Int.ofNat (mantNum * 10 ^ e.toNat)) 1
        else Rat.divInt (Int.ofNat mantNum) (Int.ofNat (10 ^ (-e).toNat))
      .val (if neg then mag.neg else mag)

/-- Zero-pad a natural to two digits. -/
def pad2 (n : Nat) : String := padZeroLeft 2 (toString n)

/-- Zero-pad a natural to three digits. -/
def pad3 (n : Nat) : String := padZeroLeft 3 (toString n)

/-- Zero-pad a natural to four digits. -/
def pad4 (n : Nat) : String := padZeroLeft 4 (toString n)

/-- Civil date (year, month, day) from days since 1970-01-01
(the standard days-to-civil conversion, valid for all `z : Nat`). -/
def civilFromDays (z : Nat) : Nat × Nat × Nat :=
  let z' := z + 719468
  let era := z' / 146097
  let doe := z' % 146097
  let yoe := (doe - doe / 1460 + doe / 36524 - doe / 146096) / 365
  let y := yoe + era * 400
  let doy := doe - (365 * yoe + yoe / 4 - yoe / 100)
  let mp := (5 * doy + 2) / 153
  let d := doy - (153 * mp + 2) / 5 + 1
  let m := if mp < 10 then mp + 3 else mp - 9
  (if m ≤ 2 then y + 1 else y, m, d)

/-- `new Date(ms).toISOString()` for a non-negative epoch-millisecond
instant: `YYYY-MM-DDTHH:MM:SS.mmmZ`. -/
def toISOString (ms : Nat) : String :=
  let msPart := ms % 1000
  let totalSecs := ms / 1000
  let s := totalSecs % 60
  let mi := totalSecs / 60 % 60
  let h := totalSecs / 3600 % 24
  let days := totalSecs / 86400
  let c := civilFromDays days
  pad4 c.1 ++ "-" ++ pad2 c.2.1 ++ "-" ++ pad2 c.2.2 ++ "T" ++
    pad2 h ++ ":" ++ pad2 mi ++ ":" ++ pad2 s ++ "." ++ pad3 msPart ++ "Z"

/-- A spreadsheet cell as written by the service: a string or a number
(`farmaciaToRow`/`medicoToRow` produce `(string | number)[]`). -/
inductive Cell where
  | str (s : String)
  | num (x : JsNumber)
deriving DecidableEq, Repr

/-- Reading a cell back through `spreadsheets.values.get` yields its
string rendering (`string[][]` in the source's transport surface). -/
def cellToString : Cell → String
  | .str s => s
  | .num x => jsNumToString x

/-- The three persisted localStorage entries (`STORAGE_KEYS`):
`google_access_token`, `google_token_expires_at`, `google_sheet_id`.
`none` models an absent key (`getItem` returning `null`). -/
structure Store where
  accessToken : Option String
  expiresAt : Option String
  sheetId : Option String
deriving DecidableEq, Repr

/-- Contents of the two data partitions of the remote sheet (rows below
the header row). -/
structure SheetData where
  farmaciasRows : List (List Cell)
  medicosRows : List (List Cell)
deriving DecidableEq, Repr

/-- Instrumentation: which resolver tier issued its remote call during
a run (`verifySheetExists`, `findExistingSheet`, `createSheet`). -/
inductive Tier where
  | verifyT
  | searchT
  | createT
deriving DecidableEq, Repr

/-- Mutable world state: localStorage, the token attached to the gapi
client, whether `initTokenClient` has run, the remote sheet contents,
plus instrumentation (`interactive`: whether
`tokenClient.requestAccessToken` was ever called; `trace`: resolver
tiers exercised, in order). -/
structure World where
  store : Store
  gapiToken : Option String
  tokenClientSet : Bool
  sheet : SheetData
  interactive : Bool
  trace : List Tier

/-- Read-only oracles for the current instant and for the outcomes of
each remote transport capability.  An `Except.error v` oracle means the
corresponding remote call rejects with the JS value `v`. -/
structure Env where
  /-- `Date.now()`. -/
  now : Nat
  /-- the random suffix `Math.random().toString(36).substring(2, 9)`. -/
  randSuffix : String
  /-- outcome of `tokenClient.requestAccessToken`: the provider error
  string, or `(access_token, expires_in seconds)`. -/
  tokenRequest : Except String (String × Nat)
  /-- outcome of `gapi.client.sheets.spreadsheets.get` per sheet id. -/
  verifyResult : String → Except JsValue Unit
  /-- outcome of `gapi.client.drive.files.list`: `response.result.files`
  (possibly absent), each entry reduced to its `id` (`""` models a
  falsy id). -/
  driveListResult : Except JsValue (Option (List String))
  /-- outcome of `gapi.client.sheets.spreadsheets.create`:
  `response.result.spreadsheetId` (possibly absent). -/
  createResult : Except JsValue (Option String)
  /-- outcome of `spreadsheets.values.batchUpdate` (header writing). -/
  batchUpdateResult : Except JsValue Unit
  /-- outcome of `spreadsheets.values.get` (range read). -/
  valuesGetResult : Except JsValue Unit
  /-- outcome of `spreadsheets.values.append`. -/
  appendResult : Except JsValue Unit
  /-- `some v` iff `google.accounts.oauth2.revoke` throws `v`
  synchronously. -/
  revokeThrows : Option JsValue

/-- Record a resolver tier call. -/
def World.addTrace (w : World) (t : Tier) : World :=
  { w with trace := w.trace ++ [t] }

/-- `gapi.client.setToken` variants. -/
def World.setGapiToken (w : World) (t : Option String) : World :=
  { w with gapiToken := t }

/-- `storeTokens` (`authService.ts`): persist token and stringified
expiry instant. -/
def World.storeTokens (w : World) (tok : String) (expiresAt : Nat) : World :=
  { w with store := { w.store with accessToken := some tok,
                                   expiresAt := some (natToString10 expiresAt) } }

/-- `clearStoredTokens`: remove the access token, expiry and sheet-id
entries together. -/
def World.clearStoredTokens (w : World) : World :=
  { w with store := { accessToken := none, expiresAt := none, sheetId := none } }

/-- `storeSheetId`. -/
def World.storeSheetIdW (w : World) (sid : String) : World :=
  { w with store := { w.store with sheetId := some sid } }

/-- Mark that `tokenClient.requestAccessToken` was called (an
interactive flow was triggered). -/
def World.markInteractive (w : World) : World :=
  { w with interactive := true }

/-- Truthiness of a nullable localStorage string
(`storedToken && ...`). -/
def strTruthy : Option String → Bool
  | some s => s ≠ ""
  | none => false

/-- `Date.now() < parseInt(expiresAt)`; false when `parseInt` gives NaN. -/
def nowBeforeExpiry (env : Env) (e : String) : Bool :=
  match parseIntJs e with
  | some n => (env.now : Int) < n
  | none => false

/-- The interactive branch of `signIn`
(`tokenClient.requestAccessToken` and its callback). -/
def signInInteractive (env : Env) (w : World) : Except JsValue Unit × World :=
  let w' := w.markInteractive
  match env.tokenRequest with
  | .error errStr => (.error (jsError errStr), w')
  | .ok (tok, expiresIn) =>
    let w'' := (w'.storeTokens tok (env.now + expiresIn * 1000)).setGapiToken (some tok)
    (.ok (), w'')

/-- `signIn` from `authService.ts`.  Rejects if the token client was
never initialised; silently reuses a stored unexpired token; otherwise
triggers the interactive token request and, on success, persists the
session (`expiresAt = Date.now() + expires_in * 1000`) and attaches the
token to the gapi client. -/
def signIn (env : Env) (w : World) : Except JsValue Unit × World :=
  if ¬ w.tokenClientSet then
    (.error (jsError "Google Auth not initialized"), w)
  else
    match w.store.accessToken, w.store.expiresAt with
    | some tok, some e =>
      if tok ≠ "" ∧ nowBeforeExpiry env e then
        (.ok (), w.setGapiToken (some tok))
      else signInInteractive env w
    | _, _ => signInInteractive env w

/-- `getAccessToken` from `authService.ts`: the stored token if
unexpired, otherwise run `signIn` and return whatever token is then
stored; `none` when no (truthy) token/expiry is stored or the sign-in
fails. -/
def getAccessToken (env : Env) (w : World) : Option String × World :=
  match w.store.accessToken, w.store.expiresAt with
  | some tok, some e =>
    if tok = "" ∨ e = "" then (none, w)
    else if nowBeforeExpiry env e then (some tok, w)
    else
      match signIn env w with
      | (.ok _, w') => (w'.store.accessToken, w')
      | (.error _, w') => (none, w')
  | _, _ => (none, w)

/-- `signOut` from `authService.ts`: if a token is attached, revoke it
(rethrowing a synchronous revocation failure) and detach it; then clear
the persisted entries.  The `catch` block rethrows, so a synchronous
revocation failure skips `clearStoredTokens`. -/
def signOut (env : Env) (w : World) : Except JsValue Unit × World :=
  match w.gapiToken with
  | some _ =>
    match env.revokeThrows with
    | some e => (.error e, w)
    | none => (.ok (), ((w.setGapiToken none).clearStoredTokens))
  | none => (.ok (), w.clearStoredTokens)

/-- `ensureAuthenticated` from `googleSheetsService.ts`: obtain a valid
token (possibly via sign-in) and attach it, or throw
`Error('Not authenticated')`. -/
def ensureAuthenticated (env : Env) (w : World) : Except JsValue Unit × World :=
  match getAccessToken env w with
  | (none, w') => (.error (jsError "Not authenticated"), w')
  | (some tok, w') =>
    if tok = "" then (.error (jsError "Not authenticated"), w')
    else (.ok (), w'.setGapiToken (some tok))

/-- The JS value thrown by a service `catch` block that normalises and
re-wraps: `new Error(pre + extractErrorMessage(error))`.  When the
normaliser itself throws, that exception propagates instead. -/
def normalizedError (pre : String) (e : JsValue) : JsValue :=
  match extractErrorMessage e with
  | .error t => t
  | .ok m => jsError (pre ++ jsToString m)

/-- `verifySheetExists` from `googleSheetsService.ts`: authenticate,
then `spreadsheets.get`, wrapping a rejection as
`Sheet not found or not accessible (id): msg`. -/
def verifySheetExists (sid : String) (env : Env) (w : World) :
    Except JsValue Unit × World :=
  match ensureAuthenticated env (w.addTrace .verifyT) with
  | (.error e, w') => (.error e, w')
  | (.ok _, w') =>
    match env.verifyResult sid with
    | .ok _ => (.ok (), w')
    | .error e =>
      (.error (normalizedError ("Sheet not found or not accessible (" ++ sid ++ "): ") e), w')

/-- `findExistingSheet` from `googleSheetsService.ts`: authenticate
(outside the `try`), then `drive.files.list`; the first file's id when
the list is non-empty (`files[0].id || null`), `null` otherwise; a
rejected list call is wrapped as `Failed to search for existing sheet:
msg`. -/
def findExistingSheet (env : Env) (w : World) :
    Except JsValue (Option String) × World :=
  match ensureAuthenticated env (w.addTrace .searchT) with
  | (.error e, w') => (.error e, w')
  | (.ok _, w') =>
    match env.driveListResult with
    | .error e => (.error (normalizedError "Failed to search for existing sheet: " e), w')
    | .ok none => (.ok none, w')
    | .ok (some []) => (.ok none, w')
    | .ok (some (f :: _)) => (.ok (if f = "" then none else some f), w')

/-- `writeHeaders`: authenticate, then `values.batchUpdate` for the two
header rows, wrapping a rejection as `Failed to write headers: msg`. -/
def writeHeaders (env : Env) (w : World) : Except JsValue Unit × World :=
  match ensureAuthenticated env w with
  | (.error e, w') => (.error e, w')
  | (.ok _, w') =>
    match env.batchUpdateResult with
    | .ok _ => (.ok (), w')
    | .error e => (.error (normalizedError "Failed to write headers: " e), w')

/-- `createSheet`: authenticate (outside the `try`), then
`spreadsheets.create`; a missing/falsy `spreadsheetId` throws inside the
`try`; then `writeHeaders`.  Every failure inside the `try` is wrapped
as `Failed to create sheet: msg`. -/
def createSheet (env : Env) (w : World) : Except JsValue String × World :=
  match ensureAuthenticated env (w.addTrace .createT) with
  | (.error e, w') => (.error e, w')
  | (.ok _, w') =>
    match env.createResult with
    | .error e => (.error (normalizedError "Failed to create sheet: " e), w')
    | .ok idOpt =>
      match idOpt with
      | none =>
        (.error (normalizedError "Failed to create sheet: "
          (jsError "Failed to create sheet - no spreadsheet ID returned")), w')
      | some sid =>
        if sid = "" then
          (.error (normalizedError "Failed to create sheet: "
            (jsError "Failed to create sheet - no spreadsheet ID returned")), w')
        else
          match writeHeaders env w' with
          | (.ok _, w'') => (.ok sid, w'')
          | (.error e, w'') => (.error (normalizedError "Failed to create sheet: " e), w'')

/-- Tier 3 of `initializeSheet`: `createSheet`, persist the new handle;
the `catch` rethrows the same error. -/
def createPhase (env : Env) (w : World) : Except JsValue String × World :=
  match createSheet env w with
  | (.ok sid, w') => (.ok sid, w'.storeSheetIdW sid)
  | (.error e, w') => (.error e, w')

/-- Tiers 2-3 of `initializeSheet`: try `findExistingSheet`; a match is
persisted and returned; no match, or a search failure (caught and
logged), falls through to creation. -/
def searchCreatePhase (env : Env) (w : World) : Except JsValue String × World :=
  match findExistingSheet env w with
  | (.ok (some sid), w') => (.ok sid, w'.storeSheetIdW sid)
  | (.ok none, w') => createPhase env w'
  | (.error _, w') => createPhase env w'

/-- `initializeSheet` from `googleSheetsService.ts`: a TRUTHY cached
handle (`if (storedSheetId)` — an absent or empty-string id is falsy
and skips tier 1) is verified first (verification failure swallowed),
then search, then creation. -/
def initializeSheet (env : Env) (w : World) : Except JsValue String × World :=
  match w.store.sheetId with
  | some sid =>
    if sid = "" then searchCreatePhase env w
    else
      match verifySheetExists sid env w with
      | (.ok _, w') => (.ok sid, w')
      | (.error _, w') => searchCreatePhase env w'
  | none => searchCreatePhase env w

/-- `Farmacia` (`src/__types__/pharmacy.ts`): two mandatory fields and
optional string/number fields, in the sheet's column order. -/
structure Farmacia where
  id : String
  createdAt : String
  email : Option String
  phone : Option String
  territorio : Option String
  pais : Option String
  estado : Option String
  municipio : Option String
  colonia : Option String
  calle : Option String
  estatus : Option String
  codigoPostal : Option String
  ruta : Option String
  nombreCuenta : Option String
  plantillaClientes : Option String
  folioTienda : Option String
  cedulaProfesional : Option String
  grupoCadena : Option String
  especialidad : Option String
  categoriaMedico : Option String
  propietarioCuenta : Option String
  lat : Option JsNumber
  lng : Option JsNumber
  googleMapsUrl : Option String
  nombreBrick : Option String
deriving DecidableEq, Repr

/-- `Medico` (`src/__types__/doctor.ts`). -/
structure Medico where
  id : String
  createdAt : String
  email : Option String
  phone : Option String
  estado : Option String
  ciudad : Option String
  colonia : Option String
  calle : Option String
  estatus : Option String
  codigoPostal : Option String
  nombreCuenta : Option String
  especialidad : Option String
  nombreBrick : Option String
  lat : Option JsNumber
  lng : Option JsNumber
  googleMapsUrl : Option String
deriving DecidableEq, Repr

/-- `Omit<Farmacia, 'id' | 'createdAt'>`: the caller-supplied partial. -/
structure FarmaciaInput where
  email : Option String
  phone : Option String
  territorio : Option String
  pais : Option String
  estado : Option String
  municipio : Option String
  colonia : Option String
  calle : Option String
  estatus : Option String
  codigoPostal : Option String
  ruta : Option String
  nombreCuenta : Option String
  plantillaClientes : Option String
  folioTienda : Option String
  cedulaProfesional : Option String
  grupoCadena : Option String
  especialidad : Option String
  categoriaMedico : Option String
  propietarioCuenta : Option String
  lat : Option JsNumber
  lng : Option JsNumber
  googleMapsUrl : Option String
  nombreBrick : Option String
deriving DecidableEq, Repr

/-- `Omit<Medico, 'id' | 'createdAt'>`. -/
structure MedicoInput where
  email : Option String
  phone : Option String
  estado : Option String
  ciudad : Option String
  colonia : Option String
  calle : Option String
  estatus : Option String
  codigoPostal : Option String
  nombreCuenta : Option String
  especialidad : Option String
  nombreBrick : Option String
  lat : Option JsNumber
  lng : Option JsNumber
  googleMapsUrl : Option String
deriving DecidableEq, Repr

/-- `row[i]` of a returned range row; an absent cell reads as the empty
string, which the source treats identically to `''` (it only ever
applies `||` or a truthiness test to it). -/
def cellAt (row : List String) (i : Nat) : String :=
  row.getD i ""

/-- `row[i] || undefined` for an optional string field. -/
def optStrAt (row : List String) (i : Nat) : Option String :=
  if cellAt row i = "" then none else some (cellAt row i)

/-- `row[i] ? parseFloat(row[i]) : undefined` for a numeric field. -/
def optNumAt (row : List String) (i : Nat) : Option JsNumber :=
  if cellAt row i = "" then none else some (jsParseFloat (cellAt row i))

/-- `rowToFarmacia`: fixed positional column mapping. -/
def rowToFarmacia (row : List String) : Farmacia :=
  { id := cellAt row 0
    createdAt := cellAt row 1
    email := optStrAt row 2
    phone := optStrAt row 3
    territorio := optStrAt row 4
    pais := optStrAt row 5
    estado := optStrAt row 6
    municipio := optStrAt row 7
    colonia := optStrAt row 8
    calle := optStrAt row 9
    estatus := optStrAt row 10
    codigoPostal := optStrAt row 11
    ruta := optStrAt row 12
    nombreCuenta := optStrAt row 13
    plantillaClientes := optStrAt row 14
    folioTienda := optStrAt row 15
    cedulaProfesional := optStrAt row 16
    grupoCadena := optStrAt row 17
    especialidad := optStrAt row 18
    categoriaMedico := optStrAt row 19
    propietarioCuenta := optStrAt row 20
    lat := optNumAt row 21
    lng := optNumAt row 22
    googleMapsUrl := optStrAt row 23
    nombreBrick := optStrAt row 24 }

/-- `rowToMedico`. -/
def rowToMedico (row : List String) : Medico :=
  { id := cellAt row 0
    createdAt := cellAt row 1
    email := optStrAt row 2
    phone := optStrAt row 3
    estado := optStrAt row 4
    ciudad := optStrAt row 5
    colonia := optStrAt row 6
    calle := optStrAt row 7
    estatus := optStrAt row 8
    codigoPostal := optStrAt row 9
    nombreCuenta := optStrAt row 10
    especialidad := optStrAt row 11
    nombreBrick := optStrAt row 12
    lat := optNumAt row 13
    lng := optNumAt row 14
    googleMapsUrl := optStrAt row 15 }

/-- `x || ''` for an optional string field written to a row. -/
def orEmptyCell (o : Option String) : Cell :=
  .str (o.getD "")

/-- `x ?? ''` for an optional numeric field written to a row. -/
def numOrEmptyCell (o : Option JsNumber) : Cell :=
  match o with
  | some x => .num x
  | none => .str ""

/-- `farmaciaToRow`. -/
def farmaciaToRow (f : Farmacia) : List Cell :=
  [ .str f.id, .str f.createdAt,
    orEmptyCell f.email, orEmptyCell f.phone, orEmptyCell f.territorio,
    orEmptyCell f.pais, orEmptyCell f.estado, orEmptyCell f.municipio,
    orEmptyCell f.colonia, orEmptyCell f.calle, orEmptyCell f.estatus,
    orEmptyCell f.codigoPostal, orEmptyCell f.ruta, orEmptyCell f.nombreCuenta,
    orEmptyCell f.plantillaClientes, orEmptyCell f.folioTienda,
    orEmptyCell f.cedulaProfesional, orEmptyCell f.grupoCadena,
    orEmptyCell f.especialidad, orEmptyCell f.categoriaMedico,
    orEmptyCell f.propietarioCuenta,
    numOrEmptyCell f.lat, numOrEmptyCell f.lng,
    orEmptyCell f.googleMapsUrl, orEmptyCell f.nombreBrick ]

/-- `medicoToRow`. -/
def medicoToRow (m : Medico) : List Cell :=
  [ .str m.id, .str m.createdAt,
    orEmptyCell m.email, orEmptyCell m.phone, orEmptyCell m.estado,
    orEmptyCell m.ciudad, orEmptyCell m.colonia, orEmptyCell m.calle,
    orEmptyCell m.estatus, orEmptyCell m.codigoPostal,
    orEmptyCell m.nombreCuenta, orEmptyCell m.especialidad,
    orEmptyCell m.nombreBrick,
    numOrEmptyCell m.lat, numOrEmptyCell m.lng,
    orEmptyCell m.googleMapsUrl ]

/-- `generateId`: `Date.now().toString(36) + '-' + random suffix`. -/
def generateId (env : Env) : String :=
  natToBase36 env.now ++ "-" ++ env.randSuffix

/-- The completed `Farmacia` synthesised by `writeFarmacia`
(`{ id: generateId(), createdAt: new Date().toISOString(), ...p }`). -/
def completeFarmacia (env : Env) (p : FarmaciaInput) : Farmacia :=
  { id := generateId env
    createdAt := toISOString env.now
    email := p.email, phone := p.phone, territorio := p.territorio
    pais := p.pais, estado := p.estado, municipio := p.municipio
    colonia := p.colonia, calle := p.calle, estatus := p.estatus
    codigoPostal := p.codigoPostal, ruta := p.ruta
    nombreCuenta := p.nombreCuenta, plantillaClientes := p.plantillaClientes
    folioTienda := p.folioTienda, cedulaProfesional := p.cedulaProfesional
    grupoCadena := p.grupoCadena, especialidad := p.especialidad
    categoriaMedico := p.categoriaMedico, propietarioCuenta := p.propietarioCuenta
    lat := p.lat, lng := p.lng
    googleMapsUrl := p.googleMapsUrl, nombreBrick := p.nombreBrick }

/-- The completed `Medico` synthesised by `writeMedico`. -/
def completeMedico (env : Env) (p : MedicoInput) : Medico :=
  { id := generateId env
    createdAt := toISOString env.now
    email := p.email, phone := p.phone, estado := p.estado
    ciudad := p.ciudad, colonia := p.colonia, calle := p.calle
    estatus := p.estatus, codigoPostal := p.codigoPostal
    nombreCuenta := p.nombreCuenta, especialidad := p.especialidad
    nombreBrick := p.nombreBrick, lat := p.lat, lng := p.lng
    googleMapsUrl := p.googleMapsUrl }

/-- `readFarmacias`: resolve the sheet, authenticate, range-read the
farmacias partition and map each row; any failure is wrapped as
`Failed to read farmacias: msg`. -/
def readFarmacias (env : Env) (w : World) :
    Except JsValue (List Farmacia) × World :=
  match initializeSheet env w with
  | (.error e, w') => (.error (normalizedError "Failed to read farmacias: " e), w')
  | (.ok _, w') =>
    match ensureAuthenticated env w' with
    | (.error e, w'') => (.error (normalizedError "Failed to read farmacias: " e), w'')
    | (.ok _, w'') =>
      match env.valuesGetResult with
      | .error e => (.error (normalizedError "Failed to read farmacias: " e), w'')
      | .ok _ =>
        (.ok ((w''.sheet.farmaciasRows.map (fun r => r.map cellToString)).map rowToFarmacia), w'')

/-- `readMedicos`. -/
def readMedicos (env : Env) (w : World) :
    Except JsValue (List Medico) × World :=
  match initializeSheet env w with
  | (.error e, w') => (.error (normalizedError "Failed to read medicos: " e), w')
  | (.ok _, w') =>
    match ensureAuthenticated env w' with
    | (.error e, w'') => (.error (normalizedError "Failed to read medicos: " e), w'')
    | (.ok _, w'') =>
      match env.valuesGetResult with
      | .error e => (.error (normalizedError "Failed to read medicos: " e), w'')
      | .ok _ =>
        (.ok ((w''.sheet.medicosRows.map (fun r => r.map cellToString)).map rowToMedico), w'')

/-- `writeFarmacia`: resolve the sheet, authenticate, synthesise
`id`/`createdAt`, append the positional row, return the completed
entity; any failure is wrapped as `Failed to write farmacia: msg`. -/
def writeFarmacia (p : FarmaciaInput) (env : Env) (w : World) :
    Except JsValue Farmacia × World :=
  match initializeSheet env w with
  | (.error e, w') => (.error (normalizedError "Failed to write farmacia: " e), w')
  | (.ok _, w') =>
    match ensureAuthenticated env w' with
    | (.error e, w'') => (.error (normalizedError "Failed to write farmacia: " e), w'')
    | (.ok _, w'') =>
      let fa := completeFarmacia env p
      match env.appendResult with
      | .error e => (.error (normalizedError "Failed to write farmacia: " e), w'')
      | .ok _ =>
        (.ok fa,
         { w'' with sheet := { w''.sheet with
             farmaciasRows := w''.sheet.farmaciasRows ++ [farmaciaToRow fa] } })

/-- `writeMedico`. -/
def writeMedico (p : MedicoInput) (env : Env) (w : World) :
    Except JsValue Medico × World :=
  match initializeSheet env w with
  | (.error e, w') => (.error (normalizedError "Failed to write medico: " e), w')
  | (.ok _, w') =>
    match ensureAuthenticated env w' with
    | (.error e, w'') => (.error (normalizedError "Failed to write medico: " e), w'')
    | (.ok _, w'') =>
      let me := completeMedico env p
      match env.appendResult with
      | .error e => (.error (normalizedError "Failed to write medico: " e), w'')
      | .ok _ =>
        (.ok me,
         { w'' with sheet := { w''.sheet with
             medicosRows := w''.sheet.medicosRows ++ [medicoToRow me] } })

/-- The token value `getAccessToken` would produce at this state (used
to phrase resolver theorems; defined via the model function itself). -/
def authTokenOf (env : Env) (w : World) : Option String :=
  (getAccessToken env w).1

/-- Tier 1 succeeds: a truthy (non-empty) handle is cached and its
verification call returns successfully at this state.  (An absent or
empty-string cached id is falsy: the code skips verification.) -/
def cacheVerified (env : Env) (w : World) : Prop :=
  ∃ sid, w.store.sheetId = some sid ∧ sid ≠ "" ∧ (verifySheetExists sid env w).1 = .ok ()

/-- The match tier 2 produces at this state: `some sid` iff
`findExistingSheet` completes successfully with a (truthy) file id. -/
def searchMatchOf (env : Env) (w : World) : Option String :=
  match (findExistingSheet env w).1 with
  | .ok (some sid) => some sid
  | _ => none

/-- Tier 2 fails (the search call rejects, or authentication fails
inside `findExistingSheet`). -/
def searchFails (env : Env) (w : World) : Prop :=
  ∃ e, (findExistingSheet env w).1 = .error e

/-!  Model of `initializeGoogleApi` (`authService.ts` lines 51-117):
promise-memoized module-level initialization.  Promises are modelled by
indices into a status list; the module state carries `initPromise`,
`gapiInited`/`gisInited`, and an instrumentation counter of bootstrap
sequences started. -/

/-- Settlement status of a modelled promise. -/
inductive PStatus where
  | pending
  | resolvedP
  | rejectedP (e : JsValue)

/-- Module-level state of `authService.ts` for `initializeGoogleApi`:
`initPromise` (a memoized promise id or `null`), the two init flags,
the promise store, and the number of bootstrap sequences that have been
started (instrumentation). -/
structure InitState where
  initPromise : Option Nat
  gapiInited : Bool
  gisInited : Bool
  promises : List PStatus
  bootstrapsStarted : Nat

/-- Status of promise `p` in the store. -/
def InitState.statusOf (s : InitState) (p : Nat) : PStatus :=
  s.promises.getD p .pending

/-- `initializeGoogleApi`: return the memoized promise if present;
return a fresh resolved promise if both flags are already set;
otherwise allocate a pending promise, memoize it and start a bootstrap
sequence. -/
def initializeGoogleApi (s : InitState) : Nat × InitState :=
  match s.initPromise with
  | some p => (p, s)
  | none =>
    if s.gapiInited ∧ s.gisInited then
      (s.promises.length, { s with promises := s.promises ++ [.resolvedP] })
    else
      (s.promises.length,
       { s with promises := s.promises ++ [.pending],
                initPromise := some s.promises.length,
                bootstrapsStarted := s.bootstrapsStarted + 1 })

/-- Replace the status of promise `p` (settling an already settled
promise is a no-op, as for JS promises). -/
def settlePromise : List PStatus → Nat → PStatus → List PStatus
  | [], _, _ => []
  | old :: rest, 0, st =>
    (match old with
     | .pending => st
     | settled => settled) :: rest
  | old :: rest, n + 1, st => old :: settlePromise rest n st

/-- How the bootstrap sequence started by `initializeGoogleApi` can
settle. -/
inductive BootOutcome where
  | ok
  /-- the `gapi.load('client', ...)` callback's `catch`: `reject(error)`
  without clearing `initPromise` (the GIS half still completes). -/
  | innerFail (e : JsValue)
  /-- the outer `catch` (a `waitForGlobal` timeout or an
  `initTokenClient` throw): `initPromise = null` then `reject(error)`. -/
  | outerFail (e : JsValue)

/-- Settle the in-flight bootstrap sequence with the given outcome,
mirroring which of the two `catch` blocks (if any) runs and what each
mutates. -/
def settleBootstrap (o : BootOutcome) (s : InitState) : InitState :=
  match s.initPromise with
  | none => s
  | some p =>
    match o with
    | .ok =>
      { s with gapiInited := true, gisInited := true,
               promises := settlePromise s.promises p .resolvedP }
    | .innerFail e =>
      { s with gisInited := true,
               promises := settlePromise s.promises p (.rejectedP e) }
    | .outerFail e =>
      { s with initPromise := none,
               promises := settlePromise s.promises p (.rejectedP e) }

/-- Iterate `initializeGoogleApi` `n` times, collecting the returned
promise ids. -/
def callInitN : Nat → InitState → List Nat × InitState
  | 0, s => ([], s)
  | n + 1, s =>
    let (p, s') := initializeGoogleApi s
    let (ps, s'') := callInitN n s'
    (p :: ps, s'')

/-- `messageFallback` implements the spec-side steps (2)-(4). -/
theorem messageFallback_eq_spec (fs : List (String × JsValue)) :
    messageFallback fs (.vObj fs) = .ok (.vStr (specFallbackMessage (.vObj fs))) := by
  unfold messageFallback specFallbackMessage messageField statusTextField
  cases h1 : lookupField fs "message" with
  | some mv =>
    cases mv
    case vStr s => simp [h1]
    all_goals
      cases h2 : lookupField fs "statusText" with
      | none => simp [h1, h2]
      | some sv => cases sv <;> simp [h1, h2]
  | none =>
    cases h2 : lookupField fs "statusText" with
    | none => simp [h1, h2]
    | some sv => cases sv <;> simp [h1, h2]


/-- C7 (amended): `extractErrorMessage` never throws and returns a
string selected by the claim's four-step precedence, provided the input
is free of the two envelope hazards (its `result.error` being
`null`/`undefined`, whose property access throws, and a truthy
non-string `result.error.message`, which is returned as-is); the
envelope step selects `result.error.message` exactly when it is a
non-empty string. -/
theorem extractErrorMessage_precedence (v : JsValue)
    (h : envelopeHazard v = false) :
    extractErrorMessage v = .ok (.vStr (specExtractMessage v)) := by
  cases v with
  | vObj fs =>
    rcases h2 : lookupField fs "result" with _ | r
    · simp [extractErrorMessage, specExtractMessage, envelopeMessage, jsTruthy, jsTypeof, h2,
        messageFallback_eq_spec fs]
    · cases r with
      | vObj rs =>
        rcases h3 : lookupField rs "error" with _ | g
        · simp [extractErrorMessage, specExtractMessage, envelopeMessage, jsTruthy, jsTypeof,
            hasField, h2, h3, messageFallback_eq_spec fs]
        · cases g with
          | vObj es =>
            rcases h4 : lookupField es "message" with _ | m
            · simp [extractErrorMessage, specExtractMessage, envelopeMessage, jsTruthy, jsTypeof,
                hasField, propGet, h2, h3, h4, messageFallback_eq_spec fs]
            · cases m with
              | vStr s =>
                by_cases hs : s = "" <;>
                  simp [extractErrorMessage, specExtractMessage, envelopeMessage, jsTruthy,
                    jsTypeof, hasField, propGet, h2, h3, h4, hs, messageFallback_eq_spec fs]
              | vNull =>
                simp [extractErrorMessage, specExtractMessage, envelopeMessage, jsTruthy,
                  jsTypeof, hasField, propGet, h2, h3, h4, messageFallback_eq_spec fs]
              | vUndefined =>
                simp [extractErrorMessage, specExtractMessage, envelopeMessage, jsTruthy,
                  jsTypeof, hasField, propGet, h2, h3, h4, messageFallback_eq_spec fs]
              | vObj ms =>
                exfalso
                simp [envelopeHazard, jsTruthy, jsTypeof, hasField, propGet, h2, h3, h4] at h
              | vBool b =>
                cases b
                · simp [extractErrorMessage, specExtractMessage, envelopeMessage, jsTruthy,
                    jsTypeof, hasField, propGet, h2, h3, h4, messageFallback_eq_spec fs]
                · exfalso
                  simp [envelopeHazard, jsTruthy, jsTypeof, hasField, propGet, h2, h3, h4] at h
              | vNum x =>
                cases x with
                | nan =>
                  simp [extractErrorMessage, specExtractMessage, envelopeMessage, jsTruthy,
                    jsTypeof, hasField, propGet, h2, h3, h4, messageFallback_eq_spec fs]
                | inf =>
                  exfalso
                  simp [envelopeHazard, jsTruthy, jsTypeof, hasField, propGet, h2, h3, h4] at h
                | negInf =>
                  exfalso
                  simp [envelopeHazard, jsTruthy, jsTypeof, hasField, propGet, h2, h3, h4] at h
                | val q =>
                  by_cases hq : q.num = 0
                  · simp [extractErrorMessage, specExtractMessage, envelopeMessage, jsTruthy,
                      jsTypeof, hasField, propGet, h2, h3, h4, hq, messageFallback_eq_spec fs]
                  · exfalso
                    simp [envelopeHazard, jsTruthy, jsTypeof, hasField, propGet, h2, h3, h4, hq] at h
          | vNull =>
            exfalso
            simp [envelopeHazard, jsTruthy, jsTypeof, hasField, propGet, h2, h3] at h
          | vUndefined =>
            exfalso
            simp [envelopeHazard, jsTruthy, jsTypeof, hasField, propGet, h2, h3] at h
          | vStr s =>
            simp [extractErrorMessage, specExtractMessage, envelopeMessage, jsTruthy, jsTypeof,
              hasField, propGet, h2, h3, messageFallback_eq_spec fs]
          | vNum x =>
            simp [extractErrorMessage, specExtractMessage, envelopeMessage, jsTruthy, jsTypeof,
              hasField, propGet, h2, h3, messageFallback_eq_spec fs]
          | vBool b =>
            simp [extractErrorMessage, specExtractMessage, envelopeMessage, jsTruthy, jsTypeof,
              hasField, propGet, h2, h3, messageFallback_eq_spec fs]
      | vNull =>
        simp [extractErrorMessage, specExtractMessage, envelopeMessage, jsTruthy, jsTypeof, h2,
          messageFallback_eq_spec fs]
      | vUndefined =>
        simp [extractErrorMessage, specExtractMessage, envelopeMessage, jsTruthy, jsTypeof, h2,
          messageFallback_eq_spec fs]
      | vStr s =>
        simp [extractErrorMessage, specExtractMessage, envelopeMessage, jsTruthy, jsTypeof, h2,
          messageFallback_eq_spec fs]
      | vNum x =>
        simp [extractErrorMessage, specExtractMessage, envelopeMessage, jsTruthy, jsTypeof, h2,
          messageFallback_eq_spec fs]
      | vBool b =>
        simp [extractErrorMessage, specExtractMessage, envelopeMessage, jsTruthy, jsTypeof, h2,
          messageFallback_eq_spec fs]
  | vUndefined =>
    simp [extractErrorMessage, specExtractMessage, envelopeMessage, messageField,
      statusTextField, jsTruthy, jsTypeof, specFallbackMessage]
  | vNull =>
    simp [extractErrorMessage, specExtractMessage, envelopeMessage, messageField,
      statusTextField, jsTruthy, jsTypeof, specFallbackMessage]
  | vBool b =>
    simp [extractErrorMessage, specExtractMessage, envelopeMessage, messageField,
      statusTextField, jsTruthy, jsTypeof, specFallbackMessage]
  | vNum x =>
    simp [extractErrorMessage, specExtractMessage, envelopeMessage, messageField,
      statusTextField, jsTruthy, jsTypeof, specFallbackMessage]
  | vStr s =>
    simp [extractErrorMessage, specExtractMessage, envelopeMessage, messageField,
      statusTextField, jsTruthy, jsTypeof, specFallbackMessage, jsToString]

/-- C7 (counterexample): as stated, the claim is false: on
`{result: {error: null}}` the normaliser throws a TypeError instead of
returning a string, and on `{result: {error: {message: 5}}}` it returns
the number `5`, not a string. -/
theorem extractErrorMessage_claim_cx :
    extractErrorMessage (.vObj [("result", .vObj [("error", .vNull)])])
      = .error (jsError "Cannot read properties of null (reading message)") ∧
    extractErrorMessage (.vObj [("result", .vObj [("error", .vObj [("message", .vNum (.val 5))])])])
      = .ok (.vNum (.val 5)) ∧
    ¬ (∀ v : JsValue, ∃ s : String, extractErrorMessage v = .ok (.vStr s)) := by
  refine ⟨rfl, by norm_num [extractErrorMessage, jsTruthy, jsTypeof, hasField, lookupField,
    propGet], ?_⟩
  intro hall
  obtain ⟨s, hs⟩ := hall (.vObj [("result", .vObj [("error", .vNull)])])
  rw [show extractErrorMessage (.vObj [("result", .vObj [("error", .vNull)])])
      = .error (jsError "Cannot read properties of null (reading message)") from rfl] at hs
  exact Except.noConfusion hs

/-- C7 (witness): the amended precedence theorem applied at a concrete
well-formed remote error envelope. -/
theorem extractErrorMessage_precedence_witness :
    envelopeHazard (.vObj [("result", .vObj [("error", .vObj [("message", .vStr "boom")])])]) = false ∧
    extractErrorMessage (.vObj [("result", .vObj [("error", .vObj [("message", .vStr "boom")])])])
      = .ok (.vStr (specExtractMessage
          (.vObj [("result", .vObj [("error", .vObj [("message", .vStr "boom")])])]))) ∧
    specExtractMessage (.vObj [("result", .vObj [("error", .vObj [("message", .vStr "boom")])])])
      = "boom" :=
  ⟨rfl, extractErrorMessage_precedence _ rfl, rfl⟩

/-- C8 (amended): every object input carrying none of the three known
fields (`result`, `message`, `statusText`) normalises to the default
conversion `[object Object]`, a non-empty string; the universal
non-emptiness of the original claim fails only on inputs whose selected
string is itself empty (e.g. the empty-string input) or which hit the
envelope throw hazard. -/
theorem extractErrorMessage_malformed_nonempty (fs : List (String × JsValue))
    (h1 : lookupField fs "result" = none)
    (h2 : lookupField fs "message" = none)
    (h3 : lookupField fs "statusText" = none) :
    extractErrorMessage (.vObj fs) = .ok (.vStr "[object Object]") ∧
    ("[object Object]" : String).length ≠ 0 := by
  constructor
  · simp [extractErrorMessage, messageFallback, jsTruthy, jsTypeof, jsToString, h1, h2, h3]
  · decide

/-- C8 (witness): the amended theorem applied to a concrete malformed
error object with no known message field. -/
theorem extractErrorMessage_malformed_nonempty_witness :
    extractErrorMessage (.vObj [("code", .vNum (.val 404))]) = .ok (.vStr "[object Object]") ∧
    ("[object Object]" : String).length ≠ 0 :=
  extractErrorMessage_malformed_nonempty [("code", .vNum (.val 404))] rfl rfl rfl

/-- C8 (counterexample): as stated, the claim is false: the empty
string is an input value on which `extractErrorMessage` returns the
empty string. -/
theorem extractErrorMessage_nonempty_cx :
    extractErrorMessage (.vStr "") = .ok (.vStr "") ∧
    ¬ (∀ v : JsValue, ∃ s : String, extractErrorMessage v = .ok (.vStr s) ∧ s ≠ "") := by
  refine ⟨rfl, ?_⟩
  intro hall
  obtain ⟨s, hs, hne⟩ := hall (.vStr "")
  rw [show extractErrorMessage (.vStr "") = .ok (.vStr "") from rfl] at hs
  cases hs
  exact hne rfl

/-- Settling promise `p` makes a pending `p` carry the new status. -/
theorem settlePromise_getD (ps : List PStatus) (p : Nat) (st : PStatus)
    (hp : p < ps.length) (hpend : ps.getD p .pending = .pending) :
    (settlePromise ps p st).getD p .pending = st := by
  induction ps generalizing p with
  | nil => simp at hp
  | cons old rest ih =>
    cases p with
    | zero =>
      simp [List.getD] at hpend
      simp [settlePromise, hpend, List.getD]
    | succ n =>
      simp [List.getD] at hpend ⊢
      simp [settlePromise]
      simpa [List.getD] using ih n (by simpa using hp) (by simpa [List.getD] using hpend)

/-- An initialization is in flight: the memoized promise exists and is
pending. -/
def inFlight (s : InitState) (p : Nat) : Prop :=
  s.initPromise = some p ∧ p < s.promises.length ∧ s.statusOf p = .pending

theorem callInitN_inFlight (s : InitState) (p : Nat)
    (h : s.initPromise = some p) :
    ∀ n, callInitN n s = (List.replicate n p, s) := by
  intro n
  induction n with
  | zero => rfl
  | succ k ih =>
    simp [callInitN, initializeGoogleApi, h, ih, List.replicate]

/-- C3: (1) any number of `initializeGoogleApi` calls made while an
initialization is memoized are all handed the very same promise and
change nothing (in particular no new bootstrap starts); (2) from an
uninitialized state, `n ≥ 1` calls start exactly one bootstrap sequence
and all `n` callers receive the same promise; (3) a call arriving after
the in-flight bootstrap succeeded returns the same, now resolved,
promise immediately, without starting a new bootstrap. -/
theorem initializeGoogleApi_concurrent_dedup :
    (∀ (s : InitState) (p n : Nat), s.initPromise = some p →
       callInitN n s = (List.replicate n p, s)) ∧
    (∀ (s : InitState) (n : Nat), s.initPromise = none →
       ¬ (s.gapiInited ∧ s.gisInited) → 1 ≤ n →
       (callInitN n s).1 = List.replicate n s.promises.length ∧
       (callInitN n s).2.bootstrapsStarted = s.bootstrapsStarted + 1) ∧
    (∀ (s : InitState) (p : Nat), inFlight s p →
       initializeGoogleApi (settleBootstrap .ok s) = (p, settleBootstrap .ok s) ∧
       (settleBootstrap .ok s).statusOf p = .resolvedP ∧
       (settleBootstrap .ok s).bootstrapsStarted = s.bootstrapsStarted) := by
  refine ⟨fun s p n h => callInitN_inFlight s p h n, ?_, ?_⟩
  · intro s n h1 h2 hn
    cases n with
    | zero => omega
    | succ k =>
      have hstep : initializeGoogleApi s =
          (s.promises.length,
           { s with promises := s.promises ++ [.pending],
                    initPromise := some s.promises.length,
                    bootstrapsStarted := s.bootstrapsStarted + 1 }) := by
        simp [initializeGoogleApi, h1, h2]
      have hrest := callInitN_inFlight
        { s with promises := s.promises ++ [.pending],
                 initPromise := some s.promises.length,
                 bootstrapsStarted := s.bootstrapsStarted + 1 }
        s.promises.length rfl k
      constructor
      · simp [callInitN, hstep, hrest, List.replicate]
      · simp [callInitN, hstep, hrest]
  · rintro s p ⟨h1, h2, h3⟩
    refine ⟨?_, ?_, ?_⟩
    · simp [settleBootstrap, h1, initializeGoogleApi]
    · simp [settleBootstrap, h1, InitState.statusOf]
      simpa [List.getD] using settlePromise_getD s.promises p .resolvedP h2 h3
    · simp [settleBootstrap, h1]

/-- The fresh module state of `authService.ts` (no memoized promise,
neither client initialized). -/
def bootS0 : InitState :=
  { initPromise := none, gapiInited := false, gisInited := false,
    promises := [], bootstrapsStarted := 0 }

/-- C3 (witness): concrete run: the first call from the fresh state
starts one bootstrap; three further calls while it is in flight all
receive promise 0 and start nothing. -/
theorem initializeGoogleApi_concurrent_dedup_witness :
    inFlight (initializeGoogleApi bootS0).2 0 ∧
    callInitN 3 (initializeGoogleApi bootS0).2 =
      (List.replicate 3 0, (initializeGoogleApi bootS0).2) ∧
    (initializeGoogleApi bootS0).2.bootstrapsStarted = 1 :=
  ⟨⟨rfl, by decide, rfl⟩,
   initializeGoogleApi_concurrent_dedup.1 (initializeGoogleApi bootS0).2 0 3 rfl,
   rfl⟩

/-- C4: evaluation at the failing input.  When the bootstrap started by
the first call fails inside the `gapi.load('client', ...)` callback
(the inner `catch`), the memoized promise is rejected but NOT cleared:
the module state keeps `initPromise = some 0`, and a subsequent
`initializeGoogleApi` call returns the same rejected promise and starts
no fresh bootstrap — the documented reset-on-error-for-retry behaviour
happens only on the outer failure path (shown in the last two
conjuncts for contrast). -/
theorem initializeGoogleApi_innerFail_no_reset :
    (settleBootstrap (.innerFail (jsError "gapi client init failed"))
        (initializeGoogleApi bootS0).2).initPromise = some 0 ∧
    (settleBootstrap (.innerFail (jsError "gapi client init failed"))
        (initializeGoogleApi bootS0).2).statusOf 0
      = .rejectedP (jsError "gapi client init failed") ∧
    initializeGoogleApi (settleBootstrap (.innerFail (jsError "gapi client init failed"))
        (initializeGoogleApi bootS0).2)
      = (0, settleBootstrap (.innerFail (jsError "gapi client init failed"))
              (initializeGoogleApi bootS0).2) ∧
    (initializeGoogleApi (settleBootstrap (.innerFail (jsError "gapi client init failed"))
        (initializeGoogleApi bootS0).2)).2.bootstrapsStarted = 1 ∧
    (settleBootstrap (.outerFail (jsError "timeout"))
        (initializeGoogleApi bootS0).2).initPromise = none ∧
    (initializeGoogleApi (settleBootstrap (.outerFail (jsError "timeout"))
        (initializeGoogleApi bootS0).2)).2.bootstrapsStarted = 2 :=
  ⟨rfl, rfl, rfl, rfl, rfl, rfl⟩

/-- A base oracle environment for concrete runs (individual claims
override the fields they exercise). -/
def baseEnv : Env :=
  { now := 50, randSuffix := "r7x",
    tokenRequest := .ok ("NEWT", 3600),
    verifyResult := fun _ => .ok (),
    driveListResult := .ok none,
    createResult := .ok (some "NEW"),
    batchUpdateResult := .ok (),
    valuesGetResult := .ok (),
    appendResult := .ok (),
    revokeThrows := none }

/-- A base world for concrete runs: a signed-in session (`T`, expiry
`100`), a cached sheet id `SID`, empty partitions. -/
def baseWorld : World :=
  { store := { accessToken := some "T", expiresAt := some "100", sheetId := some "SID" },
    gapiToken := some "T", tokenClientSet := true,
    sheet := { farmaciasRows := [], medicosRows := [] },
    interactive := false, trace := [] }

/-- C5 (amended): `signOut` clears the persisted session and sheet id
together whenever the revocation call does not throw synchronously
(including when no token is attached, where revocation is skipped);
when the revocation call throws synchronously, `signOut` rejects with
that error and leaves the persisted entries (and the whole world)
unchanged.  It rejects in no other case. -/
theorem signOut_policy (env : Env) (w : World) :
    (w.gapiToken = none ∨ env.revokeThrows = none →
       (signOut env w).1 = .ok () ∧
       (signOut env w).2.store.accessToken = none ∧
       (signOut env w).2.store.expiresAt = none ∧
       (signOut env w).2.store.sheetId = none) ∧
    (∀ e t, w.gapiToken = some t → env.revokeThrows = some e →
       (signOut env w).1 = .error e ∧ (signOut env w).2 = w) ∧
    (∀ e, (signOut env w).1 = .error e →
       ∃ t, w.gapiToken = some t ∧ env.revokeThrows = some e) := by
  refine ⟨?_, ?_, ?_⟩
  · rintro (h | h) <;>
      cases hg : w.gapiToken <;>
      cases hr : env.revokeThrows <;>
      simp_all [signOut, World.clearStoredTokens, World.setGapiToken]
  · intro e t hg hr
    simp [signOut, hg, hr]
  · intro e he
    cases hg : w.gapiToken with
    | none => simp [signOut, hg] at he
    | some t =>
      cases hr : env.revokeThrows with
      | none => simp [signOut, hg, hr] at he
      | some e' =>
        simp [signOut, hg, hr] at he
        exact ⟨t, rfl, by rw [he]⟩

/-- C5 (witness): concrete run of the amended theorem: with no
revocation failure, sign-out resolves and all three persisted entries
are cleared together. -/
theorem signOut_policy_witness :
    (signOut baseEnv baseWorld).1 = .ok () ∧
    (signOut baseEnv baseWorld).2.store.accessToken = none ∧
    (signOut baseEnv baseWorld).2.store.expiresAt = none ∧
    (signOut baseEnv baseWorld).2.store.sheetId = none :=
  (signOut_policy baseEnv baseWorld).1 (Or.inr rfl)

/-- C5 (counterexample): as stated, the claim is false: when the
revocation call throws synchronously, `signOut` rejects AND the
persisted session and sheet id are NOT cleared (`clearStoredTokens` is
never reached because the `catch` block rethrows first). -/
theorem signOut_revoke_throw_cx :
    (signOut { baseEnv with revokeThrows := some (jsError "revoke failed") } baseWorld).1
      = .error (jsError "revoke failed") ∧
    (signOut { baseEnv with revokeThrows := some (jsError "revoke failed") } baseWorld).2.store
      = { accessToken := some "T", expiresAt := some "100", sheetId := some "SID" } :=
  ⟨rfl, rfl⟩

/-- C6: `getAccessToken` policy: with a stored (truthy) token and a
parseable stored expiry, (1) if the current time is strictly before the
expiry the stored token is returned and the world — in particular the
interactive-flow flag — is untouched; if the token is expired, the
`signIn` path runs: (2) on provider success the freshly stored token is
returned and the interactive flow was triggered, (3) on provider error
`null` is returned, and (4) with no initialized token client `null` is
returned. -/
theorem getAccessToken_policy (env : Env) (w : World) (tok e : String) (x : Int)
    (htok : w.store.accessToken = some tok) (htne : tok ≠ "")
    (hexp : w.store.expiresAt = some e) (hene : e ≠ "")
    (hparse : parseIntJs e = some x) :
    ((env.now : Int) < x → getAccessToken env w = (some tok, w)) ∧
    (¬ (env.now : Int) < x → w.tokenClientSet = true →
       ∀ t' s', env.tokenRequest = .ok (t', s') →
         (getAccessToken env w).1 = some t' ∧
         (getAccessToken env w).2.store.accessToken = some t' ∧
         (getAccessToken env w).2.interactive = true) ∧
    (¬ (env.now : Int) < x → ∀ m, env.tokenRequest = .error m →
         (getAccessToken env w).1 = none) ∧
    (¬ (env.now : Int) < x → w.tokenClientSet = false →
         (getAccessToken env w).1 = none) := by
  refine ⟨?_, ?_, ?_, ?_⟩
  · intro hlt
    simp [getAccessToken, htok, hexp, htne, hene, nowBeforeExpiry, hparse, hlt]
  · intro hge hcl t' s' hreq
    simp [getAccessToken, htok, hexp, htne, hene, nowBeforeExpiry, hparse, hge, signIn, hcl,
      signInInteractive, hreq, World.markInteractive, World.storeTokens, World.setGapiToken]
  · intro hge m hreq
    cases hcl : w.tokenClientSet <;>
      simp [getAccessToken, htok, hexp, htne, hene, nowBeforeExpiry, hparse, hge, signIn, hcl,
        signInInteractive, hreq, World.markInteractive]
  · intro hge hcl
    simp [getAccessToken, htok, hexp, htne, hene, nowBeforeExpiry, hparse, hge, signIn, hcl]

/-- C6 (witness): the spec's concrete expiry scenario around
`expiresAt = 100`: at `now = 99` the stored token is returned with no
interactive flow; at `now = 101` the sign-in path runs and the freshly
stored provider token is returned. -/
theorem getAccessToken_policy_witness :
    getAccessToken { baseEnv with now := 99 } baseWorld = (some "T", baseWorld) ∧
    (getAccessToken { baseEnv with now := 101 } baseWorld).1 = some "NEWT" ∧
    (getAccessToken { baseEnv with now := 101 } baseWorld).2.interactive = true :=
  ⟨(getAccessToken_policy { baseEnv with now := 99 } baseWorld "T" "100" 100
      rfl (by decide) rfl (by decide) (by decide)).1 (by decide),
   ((getAccessToken_policy { baseEnv with now := 101 } baseWorld "T" "100" 100
      rfl (by decide) rfl (by decide) (by decide)).2.1 (by decide) rfl "NEWT" 3600 rfl).1,
   ((getAccessToken_policy { baseEnv with now := 101 } baseWorld "T" "100" 100
      rfl (by decide) rfl (by decide) (by decide)).2.1 (by decide) rfl "NEWT" 3600 rfl).2.2⟩

/-- The value `getAccessToken` returns, as a function of the
auth-relevant part of the state (stored token, stored expiry, token
client initialized). -/
def authVal (env : Env) (a e : Option String) (tc : Bool) : Option String :=
  match a, e with
  | some tok, some ex =>
    if tok = "" ∨ ex = "" then none
    else if nowBeforeExpiry env ex then some tok
    else if tc then
      match env.tokenRequest with
      | .error _ => none
      | .ok (t', _) => some t'
    else none
  | _, _ => none

/-- The world `getAccessToken` leaves behind. -/
def authWorldAfter (env : Env) (w : World) : World :=
  match w.store.accessToken, w.store.expiresAt with
  | some tok, some ex =>
    if tok = "" ∨ ex = "" then w
    else if nowBeforeExpiry env ex then w
    else if w.tokenClientSet then
      match env.tokenRequest with
      | .error _ => w.markInteractive
      | .ok (t', s') =>
        ((w.markInteractive).storeTokens t' (env.now + s' * 1000)).setGapiToken (some t')
    else w
  | _, _ => w

/-- Characterization of `getAccessToken`. -/
theorem getAccessToken_char (env : Env) (w : World) :
    getAccessToken env w =
      (authVal env w.store.accessToken w.store.expiresAt w.tokenClientSet,
       authWorldAfter env w) := by
  unfold getAccessToken authVal authWorldAfter signIn signInInteractive
  cases hA : w.store.accessToken with
  | none => rfl
  | some tok =>
    cases hE : w.store.expiresAt with
    | none => rfl
    | some ex =>
      by_cases h1 : tok = "" ∨ ex = ""
      · simp [h1]
      · simp only [h1, if_false, ite_false]
        by_cases h2 : nowBeforeExpiry env ex
        · simp [h2]
        · have htok : ¬ tok = "" := fun hh => h1 (Or.inl hh)
          cases htc : w.tokenClientSet with
          | false => simp [h2, htok, hA]
          | true =>
            cases hreq : env.tokenRequest with
            | error m => simp [h2, htok, hreq, hA]
            | ok ts =>
              cases ts with
              | mk t' s' =>
                simp [h2, htok, hreq, hA, World.markInteractive, World.storeTokens,
                  World.setGapiToken]

/-- The token `ensureAuthenticated` attaches (`none` when it throws
`Not authenticated`, i.e. when `getAccessToken` yields no token or the
falsy empty-string token). -/
def authOkOf (env : Env) (a e : Option String) (tc : Bool) : Option String :=
  match authVal env a e tc with
  | some t => if t = "" then none else some t
  | none => none

/-- The auth-relevant view of a world. -/
def World.authView (w : World) : Option String × Option String × Bool :=
  (w.store.accessToken, w.store.expiresAt, w.tokenClientSet)

/-- `ensureAuthenticated`'s token at a world. -/
def tierAuth (env : Env) (w : World) : Option String :=
  authOkOf env w.store.accessToken w.store.expiresAt w.tokenClientSet

/-- The world `ensureAuthenticated` leaves behind. -/
def ensureAuthWorld (env : Env) (w : World) : World :=
  match tierAuth env w with
  | some t => (authWorldAfter env w).setGapiToken (some t)
  | none => authWorldAfter env w

/-- Characterization of `ensureAuthenticated`. -/
theorem ensureAuthenticated_char (env : Env) (w : World) :
    ensureAuthenticated env w =
      ((match tierAuth env w with
        | some _ => .ok ()
        | none => .error (jsError "Not authenticated")),
       ensureAuthWorld env w) := by
  unfold ensureAuthenticated
  rw [getAccessToken_char]
  cases hv : authVal env w.store.accessToken w.store.expiresAt w.tokenClientSet with
  | none => simp [tierAuth, authOkOf, ensureAuthWorld, hv]
  | some t =>
    by_cases ht : t = "" <;> simp [tierAuth, authOkOf, ensureAuthWorld, hv, ht]

/-- `authWorldAfter` only touches the session entries, the gapi token
and the interactive flag. -/
theorem authWorldAfter_frame (env : Env) (w : World) :
    (authWorldAfter env w).store.sheetId = w.store.sheetId ∧
    (authWorldAfter env w).trace = w.trace ∧
    (authWorldAfter env w).sheet = w.sheet ∧
    (authWorldAfter env w).tokenClientSet = w.tokenClientSet := by
  unfold authWorldAfter
  cases hA : w.store.accessToken with
  | none => exact ⟨rfl, rfl, rfl, rfl⟩
  | some tok =>
    cases hE : w.store.expiresAt with
    | none => exact ⟨rfl, rfl, rfl, rfl⟩
    | some ex =>
      by_cases h1 : tok = "" ∨ ex = ""
      · simp [h1]
      · simp only [h1, if_false, ite_false]
        by_cases h2 : nowBeforeExpiry env ex
        · simp [h2]
        · cases htc : w.tokenClientSet with
          | false => simp [h2, htc]
          | true =>
            cases hreq : env.tokenRequest with
            | error m => simp [h2, htc, hreq, World.markInteractive]
            | ok ts =>
              cases ts with
              | mk t' s' =>
                simp [h2, htc, hreq, World.markInteractive, World.storeTokens,
                  World.setGapiToken]

/-- Same frame facts for `ensureAuthWorld`. -/
theorem ensureAuthWorld_frame (env : Env) (w : World) :
    (ensureAuthWorld env w).store.sheetId = w.store.sheetId ∧
    (ensureAuthWorld env w).trace = w.trace ∧
    (ensureAuthWorld env w).sheet = w.sheet ∧
    (ensureAuthWorld env w).tokenClientSet = w.tokenClientSet := by
  unfold ensureAuthWorld
  cases h : tierAuth env w with
  | none => exact authWorldAfter_frame env w
  | some t =>
    have := authWorldAfter_frame env w
    simpa [World.setGapiToken] using this

/-- A decimal rendering is never the empty string. -/
theorem natToString10_ne_empty (n : Nat) : natToString10 n ≠ "" := by
  unfold natToString10
  by_cases h : n = 0
  · simp [h]
  · simp only [h, if_false, ite_false]
    intro hc
    have hdata : natToDecGo n n = [] := congrArg String.data hc
    cases hn : n with
    | zero => exact h hn
    | succ m =>
      rw [hn] at hdata
      rw [natToDecGo] at hdata
      simp [hn ▸ h] at hdata

/-- `tierAuth` depends only on the auth view. -/
theorem tierAuth_congr (env : Env) (w1 w2 : World) (h : w1.authView = w2.authView) :
    tierAuth env w1 = tierAuth env w2 := by
  have h1 : w1.store.accessToken = w2.store.accessToken := congrArg (fun p => p.1) h
  have h2 : w1.store.expiresAt = w2.store.expiresAt := congrArg (fun p => p.2.1) h
  have h3 : w1.tokenClientSet = w2.tokenClientSet := congrArg (fun p => p.2.2) h
  unfold tierAuth
  rw [h1, h2, h3]

/-- `authWorldAfter` preserves the auth outcome: running
`ensureAuthenticated` does not change which token a later
`ensureAuthenticated` call will obtain. -/
theorem tierAuth_stable (env : Env) (w : World) :
    tierAuth env (ensureAuthWorld env w) = tierAuth env w := by
  have hview : (ensureAuthWorld env w).authView = (authWorldAfter env w).authView := by
    unfold ensureAuthWorld
    cases tierAuth env w <;> simp [World.authView, World.setGapiToken]
  rw [tierAuth_congr env _ _ hview]
  unfold authWorldAfter
  cases hA : w.store.accessToken with
  | none => rfl
  | some tok =>
    cases hE : w.store.expiresAt with
    | none => rfl
    | some ex =>
      by_cases h1 : tok = "" ∨ ex = ""
      · simp [h1]
      · simp only [h1, if_false, ite_false]
        by_cases h2 : nowBeforeExpiry env ex
        · simp [h2]
        · cases htc : w.tokenClientSet with
          | false => simp [h2, htc]
          | true =>
            cases hreq : env.tokenRequest with
            | error m => simp [h2, htc, hreq, tierAuth, World.markInteractive, hA, hE]
            | ok ts =>
              cases ts with
              | mk t' s' =>
                simp only [h2, htc, hreq, if_true, ite_true, if_false, ite_false]
                unfold tierAuth authOkOf authVal
                simp only [World.markInteractive, World.storeTokens, World.setGapiToken, hA, hE]
                have hdec := natToString10_ne_empty (env.now + s' * 1000)
                by_cases ht' : t' = ""
                · simp [ht', h1, h2, htc, hreq, hdec]
                · by_cases h3 : nowBeforeExpiry env (natToString10 (env.now + s' * 1000)) <;>
                    simp [ht', h1, h2, h3, htc, hreq, hdec]

/-- `authWorldAfter` commutes with trace recording. -/
theorem authWorldAfter_addTrace (env : Env) (w : World) (t : Tier) :
    authWorldAfter env (w.addTrace t) = (authWorldAfter env w).addTrace t := by
  unfold authWorldAfter
  cases hA : w.store.accessToken with
  | none => simp [World.addTrace, hA]
  | some tok =>
    cases hE : w.store.expiresAt with
    | none => simp [World.addTrace, hA, hE]
    | some ex =>
      by_cases h1 : tok = "" ∨ ex = ""
      · simp [World.addTrace, hA, hE, h1]
      · by_cases h2 : nowBeforeExpiry env ex
        · simp [World.addTrace, hA, hE, h1, h2]
        · cases htc : w.tokenClientSet with
          | false => simp [World.addTrace, hA, hE, h1, h2, htc]
          | true =>
            cases hreq : env.tokenRequest with
            | error m =>
              simp [World.addTrace, World.markInteractive, hA, hE, h1, h2, htc, hreq]
            | ok ts =>
              cases ts with
              | mk t' s' =>
                simp [World.addTrace, World.markInteractive, World.storeTokens,
                  World.setGapiToken, hA, hE, h1, h2, htc, hreq]

/-- `ensureAuthWorld` commutes with trace recording. -/
theorem ensureAuthWorld_addTrace (env : Env) (w : World) (t : Tier) :
    ensureAuthWorld env (w.addTrace t) = (ensureAuthWorld env w).addTrace t := by
  unfold ensureAuthWorld
  have hv : tierAuth env (w.addTrace t) = tierAuth env w :=
    tierAuth_congr env _ _ (by simp [World.authView, World.addTrace])
  rw [hv, authWorldAfter_addTrace]
  cases tierAuth env w <;> simp [World.addTrace, World.setGapiToken]

/-- Running `ensureAuthenticated` twice leaves the same world as
running it once. -/
theorem ensureAuthWorld_idem (env : Env) (w : World) :
    ensureAuthWorld env (ensureAuthWorld env w) = ensureAuthWorld env w := by
  unfold ensureAuthWorld tierAuth authOkOf authVal authWorldAfter
  cases hA : w.store.accessToken with
  | none => simp [hA]
  | some tok =>
    cases hE : w.store.expiresAt with
    | none => simp [hA, hE]
    | some ex =>
      by_cases h1 : tok = "" ∨ ex = ""
      · simp [hA, hE, h1]
      · have htok : ¬ tok = "" := fun hh => h1 (Or.inl hh)
        have hex : ¬ ex = "" := fun hh => h1 (Or.inr hh)
        by_cases h2 : nowBeforeExpiry env ex
        · simp [hA, hE, h1, h2, htok, hex, World.setGapiToken]
        · cases htc : w.tokenClientSet with
          | false => simp [hA, hE, h1, h2, htc, htok, hex]
          | true =>
            cases hreq : env.tokenRequest with
            | error m =>
              simp [hA, hE, h1, h2, htc, hreq, htok, hex, World.markInteractive]
            | ok ts =>
              cases ts with
              | mk t' s' =>
                have hdec := natToString10_ne_empty (env.now + s' * 1000)
                by_cases ht' : t' = ""
                · simp [hA, hE, h1, h2, htc, hreq, ht', htok, hex, hdec, World.markInteractive,
                    World.storeTokens, World.setGapiToken]
                · by_cases h3 : nowBeforeExpiry env (natToString10 (env.now + s' * 1000)) <;>
                    simp [hA, hE, h1, h2, h3, htc, hreq, ht', htok, hex, hdec,
                      World.markInteractive, World.storeTokens, World.setGapiToken]

/-- Outcome of `verifySheetExists` as a function of the auth outcome
and the oracle. -/
def verifyVal (env : Env) (a : Option String) (sid : String) : Except JsValue Unit :=
  match a with
  | none => .error (jsError "Not authenticated")
  | some _ =>
    match env.verifyResult sid with
    | .ok _ => .ok ()
    | .error e =>
      .error (normalizedError ("Sheet not found or not accessible (" ++ sid ++ "): ") e)

/-- Outcome of `findExistingSheet` as a function of the auth outcome
and the oracle. -/
def searchVal (env : Env) (a : Option String) : Except JsValue (Option String) :=
  match a with
  | none => .error (jsError "Not authenticated")
  | some _ =>
    match env.driveListResult with
    | .error e => .error (normalizedError "Failed to search for existing sheet: " e)
    | .ok none => .ok none
    | .ok (some []) => .ok none
    | .ok (some (f :: _)) => .ok (if f = "" then none else some f)

/-- Outcome of `createSheet` as a function of the auth outcome and the
oracles. -/
def createVal (env : Env) (a : Option String) : Except JsValue String :=
  match a with
  | none => .error (jsError "Not authenticated")
  | some _ =>
    match env.createResult with
    | .error e => .error (normalizedError "Failed to create sheet: " e)
    | .ok none =>
      .error (normalizedError "Failed to create sheet: "
        (jsError "Failed to create sheet - no spreadsheet ID returned"))
    | .ok (some sid) =>
      if sid = "" then
        .error (normalizedError "Failed to create sheet: "
          (jsError "Failed to create sheet - no spreadsheet ID returned"))
      else
        match env.batchUpdateResult with
        | .ok _ => .ok sid
        | .error e =>
          .error (normalizedError "Failed to create sheet: "
            (normalizedError "Failed to write headers: " e))

/-- Characterization of `verifySheetExists`. -/
theorem verifySheetExists_char (env : Env) (w : World) (sid : String) :
    verifySheetExists sid env w =
      (verifyVal env (tierAuth env w) sid, ensureAuthWorld env (w.addTrace .verifyT)) := by
  unfold verifySheetExists verifyVal
  rw [ensureAuthenticated_char]
  rw [tierAuth_congr env (w.addTrace .verifyT) w (by simp [World.authView, World.addTrace])]
  cases h : tierAuth env w with
  | none => simp
  | some t => cases hr : env.verifyResult sid <;> simp [hr]

/-- Characterization of `findExistingSheet`. -/
theorem findExistingSheet_char (env : Env) (w : World) :
    findExistingSheet env w =
      (searchVal env (tierAuth env w), ensureAuthWorld env (w.addTrace .searchT)) := by
  unfold findExistingSheet searchVal
  rw [ensureAuthenticated_char]
  rw [tierAuth_congr env (w.addTrace .searchT) w (by simp [World.authView, World.addTrace])]
  cases h : tierAuth env w with
  | none => simp
  | some t =>
    cases hr : env.driveListResult with
    | error e => simp [hr]
    | ok o =>
      cases o with
      | none => simp [hr]
      | some l => cases l <;> simp [hr]

/-- Characterization of `writeHeaders`. -/
theorem writeHeaders_char (env : Env) (w : World) :
    writeHeaders env w =
      ((match tierAuth env w with
        | none => .error (jsError "Not authenticated")
        | some _ =>
          match env.batchUpdateResult with
          | .ok _ => .ok ()
          | .error e => .error (normalizedError "Failed to write headers: " e)),
       ensureAuthWorld env w) := by
  unfold writeHeaders
  rw [ensureAuthenticated_char]
  cases h : tierAuth env w with
  | none => simp
  | some t => cases hr : env.batchUpdateResult <;> simp [hr]

/-- Characterization of `createSheet`. -/
theorem createSheet_char (env : Env) (w : World) :
    createSheet env w =
      (createVal env (tierAuth env w), ensureAuthWorld env (w.addTrace .createT)) := by
  unfold createSheet createVal
  rw [ensureAuthenticated_char]
  rw [tierAuth_congr env (w.addTrace .createT) w (by simp [World.authView, World.addTrace])]
  cases h : tierAuth env w with
  | none => simp
  | some t =>
    cases hc : env.createResult with
    | error e => simp [hc]
    | ok o =>
      cases o with
      | none => simp [hc]
      | some sid =>
        by_cases hsid : sid = ""
        · simp [hc, hsid]
        · dsimp only
          simp only [hsid, if_false, ite_false]
          rw [writeHeaders_char]
          have hst : tierAuth env (ensureAuthWorld env (w.addTrace .createT)) = some t := by
            rw [tierAuth_stable]
            rw [tierAuth_congr env (w.addTrace .createT) w
              (by simp [World.authView, World.addTrace])]
            exact h
          rw [hst, ensureAuthWorld_idem]
          cases hb : env.batchUpdateResult <;> simp [hc, hsid, hb]

theorem storeSheetIdW_trace (w : World) (sid : String) :
    (w.storeSheetIdW sid).trace = w.trace := rfl

theorem storeSheetIdW_sheet (w : World) (sid : String) :
    (w.storeSheetIdW sid).sheet = w.sheet := rfl

theorem addTrace_trace (w : World) (t : Tier) :
    (w.addTrace t).trace = w.trace ++ [t] := rfl

/-- Characterization of `createPhase`. -/
theorem createPhase_char (env : Env) (w : World) :
    createPhase env w =
      (createVal env (tierAuth env w),
       match createVal env (tierAuth env w) with
       | .ok sid => (ensureAuthWorld env (w.addTrace .createT)).storeSheetIdW sid
       | .error _ => ensureAuthWorld env (w.addTrace .createT)) := by
  unfold createPhase
  rw [createSheet_char]
  cases h : createVal env (tierAuth env w) <;> simp [h]

/-- Characterization of `searchCreatePhase`. -/
theorem searchCreatePhase_char (env : Env) (w : World) :
    searchCreatePhase env w =
      (match searchVal env (tierAuth env w) with
       | .ok (some sid) => (.ok sid)
       | _ => createVal env (tierAuth env w),
       match searchVal env (tierAuth env w) with
       | .ok (some sid) => (ensureAuthWorld env (w.addTrace .searchT)).storeSheetIdW sid
       | _ =>
         match createVal env (tierAuth env w) with
         | .ok sid =>
           (ensureAuthWorld env ((w.addTrace .searchT).addTrace .createT)).storeSheetIdW sid
         | .error _ => ensureAuthWorld env ((w.addTrace .searchT).addTrace .createT)) := by
  unfold searchCreatePhase
  rw [findExistingSheet_char]
  have hAT : tierAuth env (ensureAuthWorld env (w.addTrace .searchT)) = tierAuth env w := by
    rw [tierAuth_stable]
    exact tierAuth_congr env _ _ (by simp [World.authView, World.addTrace])
  have hW : ensureAuthWorld env ((ensureAuthWorld env (w.addTrace .searchT)).addTrace .createT)
      = ensureAuthWorld env ((w.addTrace .searchT).addTrace .createT) := by
    rw [← ensureAuthWorld_addTrace, ensureAuthWorld_idem, ensureAuthWorld_addTrace]
  cases h : searchVal env (tierAuth env w) with
  | error e =>
    dsimp only
    rw [createPhase_char, hAT, hW]
  | ok o =>
    cases o with
    | some sid => simp
    | none =>
      dsimp only
      rw [createPhase_char, hAT, hW]

/-- Full characterization of `initializeSheet`: result and final world
as a function of the cached handle, the auth outcome and the oracles. -/
theorem initializeSheet_char (env : Env) (w : World) :
    initializeSheet env w =
      match w.store.sheetId with
      | some sid =>
        if sid = "" then
          (match searchVal env (tierAuth env w) with
           | .ok (some sid') => (.ok sid')
           | _ => createVal env (tierAuth env w),
           match searchVal env (tierAuth env w) with
           | .ok (some sid') =>
             (ensureAuthWorld env (w.addTrace .searchT)).storeSheetIdW sid'
           | _ =>
             match createVal env (tierAuth env w) with
             | .ok sid' =>
               (ensureAuthWorld env
                 ((w.addTrace .searchT).addTrace .createT)).storeSheetIdW sid'
             | .error _ =>
               ensureAuthWorld env ((w.addTrace .searchT).addTrace .createT))
        else
        match verifyVal env (tierAuth env w) sid with
        | .ok _ => (.ok sid, ensureAuthWorld env (w.addTrace .verifyT))
        | .error _ =>
          (match searchVal env (tierAuth env w) with
           | .ok (some sid') => (.ok sid')
           | _ => createVal env (tierAuth env w),
           match searchVal env (tierAuth env w) with
           | .ok (some sid') =>
             (ensureAuthWorld env
               ((w.addTrace .verifyT).addTrace .searchT)).storeSheetIdW sid'
           | _ =>
             match createVal env (tierAuth env w) with
             | .ok sid' =>
               (ensureAuthWorld env
                 (((w.addTrace .verifyT).addTrace .searchT).addTrace .createT)).storeSheetIdW sid'
             | .error _ =>
               ensureAuthWorld env
                 (((w.addTrace .verifyT).addTrace .searchT).addTrace .createT))
      | none =>
        (match searchVal env (tierAuth env w) with
         | .ok (some sid') => (.ok sid')
         | _ => createVal env (tierAuth env w),
         match searchVal env (tierAuth env w) with
         | .ok (some sid') =>
           (ensureAuthWorld env (w.addTrace .searchT)).storeSheetIdW sid'
         | _ =>
           match createVal env (tierAuth env w) with
           | .ok sid' =>
             (ensureAuthWorld env
               ((w.addTrace .searchT).addTrace .createT)).storeSheetIdW sid'
           | .error _ =>
             ensureAuthWorld env ((w.addTrace .searchT).addTrace .createT)) := by
  unfold initializeSheet
  cases hsid : w.store.sheetId with
  | none => exact searchCreatePhase_char env w
  | some sid =>
    dsimp only
    by_cases hse : sid = ""
    · rw [if_pos hse, if_pos hse]
      exact searchCreatePhase_char env w
    rw [if_neg hse, if_neg hse]
    rw [verifySheetExists_char]
    cases hv : verifyVal env (tierAuth env w) sid with
    | ok u => simp
    | error e =>
      dsimp only
      rw [searchCreatePhase_char]
      have hAT : tierAuth env (ensureAuthWorld env (w.addTrace .verifyT)) = tierAuth env w := by
        rw [tierAuth_stable]
        exact tierAuth_congr env _ _ (by simp [World.authView, World.addTrace])
      have hW1 : ensureAuthWorld env ((ensureAuthWorld env (w.addTrace .verifyT)).addTrace .searchT)
          = ensureAuthWorld env ((w.addTrace .verifyT).addTrace .searchT) := by
        rw [← ensureAuthWorld_addTrace, ensureAuthWorld_idem, ensureAuthWorld_addTrace]
      have hW2 : ensureAuthWorld env
            (((ensureAuthWorld env (w.addTrace .verifyT)).addTrace .searchT).addTrace .createT)
          = ensureAuthWorld env (((w.addTrace .verifyT).addTrace .searchT).addTrace .createT) := by
        rw [← ensureAuthWorld_addTrace, ← ensureAuthWorld_addTrace, ensureAuthWorld_idem,
          ensureAuthWorld_addTrace, ensureAuthWorld_addTrace]
      rw [hAT, hW1, hW2]

theorem eAW_trace (env : Env) (x : World) :
    (ensureAuthWorld env x).trace = x.trace := (ensureAuthWorld_frame env x).2.1

theorem eAW_sheetId (env : Env) (x : World) :
    (ensureAuthWorld env x).store.sheetId = x.store.sheetId := (ensureAuthWorld_frame env x).1

theorem eAW_sheet (env : Env) (x : World) :
    (ensureAuthWorld env x).sheet = x.sheet := (ensureAuthWorld_frame env x).2.2.1

/-- Tier 1 verdict in terms of the oracles. -/
theorem cacheVerified_iff (env : Env) (w : World) :
    cacheVerified env w ↔
      ∃ sid, w.store.sheetId = some sid ∧ sid ≠ "" ∧
        verifyVal env (tierAuth env w) sid = .ok () := by
  unfold cacheVerified
  constructor
  · rintro ⟨sid, h1, hne, h2⟩
    rw [verifySheetExists_char] at h2
    exact ⟨sid, h1, hne, h2⟩
  · rintro ⟨sid, h1, hne, h2⟩
    refine ⟨sid, h1, hne, ?_⟩
    rw [verifySheetExists_char]
    exact h2

/-- Tier 2 verdict in terms of the oracles. -/
theorem searchMatchOf_eq (env : Env) (w : World) :
    searchMatchOf env w =
      (match searchVal env (tierAuth env w) with
       | .ok (some sid) => some sid
       | _ => none) := by
  unfold searchMatchOf
  rw [findExistingSheet_char]

/-- C1 (amended): on every call, the resolver's trace of tier calls is
an in-order sublist of [verify, search, create] (each tier at most
once, never reordered): verification runs iff the cached handle is
TRUTHY (`if (storedSheetId)` — an absent or empty-string id skips
tier 1); search runs iff tier 1 did not produce a verified handle;
creation runs iff moreover the search did not produce a match — where
"did not produce a match" covers both a search that completed with no
match and a search that failed (the failure is swallowed), which is
the one correction to the claim.  A verified cached handle, or a
search match, is returned as the result. -/
theorem initializeSheet_tier_order (env : Env) (w : World) :
    ∃ t : List Tier,
      (initializeSheet env w).2.trace = w.trace ++ t ∧
      t.Sublist [Tier.verifyT, Tier.searchT, Tier.createT] ∧
      (Tier.verifyT ∈ t ↔ strTruthy w.store.sheetId = true) ∧
      (Tier.searchT ∈ t ↔ ¬ cacheVerified env w) ∧
      (Tier.createT ∈ t ↔ (¬ cacheVerified env w ∧ searchMatchOf env w = none)) ∧
      (∀ sid, w.store.sheetId = some sid → cacheVerified env w →
        (initializeSheet env w).1 = .ok sid) ∧
      (∀ sid, ¬ cacheVerified env w → searchMatchOf env w = some sid →
        (initializeSheet env w).1 = .ok sid) := by
  have hcv := cacheVerified_iff env w
  have hsm := searchMatchOf_eq env w
  cases hsid : w.store.sheetId with
  | none =>
    have hncv : ¬ cacheVerified env w := by
      rw [hcv]; rintro ⟨sid, h1, -⟩; rw [hsid] at h1; exact Option.noConfusion h1
    cases hs : searchVal env (tierAuth env w) with
    | ok o =>
      cases o with
      | some sid' =>
        refine ⟨[Tier.searchT], ?_, by decide, ?_, ?_, ?_, ?_, ?_⟩
        · rw [initializeSheet_char]
          simp [hsid, hs, storeSheetIdW_trace, eAW_trace, addTrace_trace]
        · simp [hsid, strTruthy]
        · simp [hncv]
        · simp only [hsm, hs]
          simp [hncv]
        · intro sid h1; exact Option.noConfusion h1
        · intro sid h1 h2
          rw [hsm, hs] at h2
          rw [initializeSheet_char]
          simp only [hsid, hs]
          simp at h2
          simp [h2]
      | none =>
        cases hc : createVal env (tierAuth env w) with
        | ok sidc =>
          refine ⟨[Tier.searchT, Tier.createT], ?_, by decide, ?_, ?_, ?_, ?_, ?_⟩
          · rw [initializeSheet_char]
            simp [hsid, hs, hc, storeSheetIdW_trace, eAW_trace, addTrace_trace]
          · simp [hsid, strTruthy]
          · simp [hncv]
          · simp only [hsm, hs]
            simp [hncv]
          · intro sid h1; exact Option.noConfusion h1
          · intro sid h1 h2
            rw [hsm, hs] at h2
            exact absurd h2 (by simp)
        | error e =>
          refine ⟨[Tier.searchT, Tier.createT], ?_, by decide, ?_, ?_, ?_, ?_, ?_⟩
          · rw [initializeSheet_char]
            simp [hsid, hs, hc, storeSheetIdW_trace, eAW_trace, addTrace_trace]
          · simp [hsid, strTruthy]
          · simp [hncv]
          · simp only [hsm, hs]
            simp [hncv]
          · intro sid h1; exact Option.noConfusion h1
          · intro sid h1 h2
            rw [hsm, hs] at h2
            exact absurd h2 (by simp)
    | error e =>
      cases hc : createVal env (tierAuth env w) with
      | ok sidc =>
        refine ⟨[Tier.searchT, Tier.createT], ?_, by decide, ?_, ?_, ?_, ?_, ?_⟩
        · rw [initializeSheet_char]
          simp [hsid, hs, hc, storeSheetIdW_trace, eAW_trace, addTrace_trace]
        · simp [hsid, strTruthy]
        · simp [hncv]
        · simp only [hsm, hs]
          simp [hncv]
        · intro sid h1; exact Option.noConfusion h1
        · intro sid h1 h2
          rw [hsm, hs] at h2
          exact absurd h2 (by simp)
      | error e' =>
        refine ⟨[Tier.searchT, Tier.createT], ?_, by decide, ?_, ?_, ?_, ?_, ?_⟩
        · rw [initializeSheet_char]
          simp [hsid, hs, hc, storeSheetIdW_trace, eAW_trace, addTrace_trace]
        · simp [hsid, strTruthy]
        · simp [hncv]
        · simp only [hsm, hs]
          simp [hncv]
        · intro sid h1; exact Option.noConfusion h1
        · intro sid h1 h2
          rw [hsm, hs] at h2
          exact absurd h2 (by simp)
  | some sid0 =>
    by_cases hse : sid0 = ""
    · have hncv : ¬ cacheVerified env w := by
        rw [hcv]; rintro ⟨sid, h1, hne, -⟩
        rw [hsid] at h1; cases h1; exact hne hse
      cases hs : searchVal env (tierAuth env w) with
      | ok o =>
        cases o with
        | some sid' =>
          refine ⟨[Tier.searchT], ?_, by decide, ?_, ?_, ?_, ?_, ?_⟩
          · rw [initializeSheet_char]
            simp [hsid, hse, hs, storeSheetIdW_trace, eAW_trace, addTrace_trace]
          · simp [hsid, hse, strTruthy]
          · simp [hncv]
          · simp only [hsm, hs]
            simp [hncv]
          · intro sid h1 h2; exact absurd h2 hncv
          · intro sid h1 h2
            rw [hsm, hs] at h2
            rw [initializeSheet_char]
            simp only [hsid, hse, if_pos]
            simp only [hs]
            simp at h2
            simp [h2]
        | none =>
          refine ⟨[Tier.searchT, Tier.createT], ?_, by decide, ?_, ?_, ?_, ?_, ?_⟩
          · rw [initializeSheet_char]
            cases hc : createVal env (tierAuth env w) <;>
              simp [hsid, hse, hs, hc, storeSheetIdW_trace, eAW_trace, addTrace_trace]
          · simp [hsid, hse, strTruthy]
          · simp [hncv]
          · simp only [hsm, hs]
            simp [hncv]
          · intro sid h1 h2; exact absurd h2 hncv
          · intro sid h1 h2
            rw [hsm, hs] at h2
            exact absurd h2 (by simp)
      | error e =>
        refine ⟨[Tier.searchT, Tier.createT], ?_, by decide, ?_, ?_, ?_, ?_, ?_⟩
        · rw [initializeSheet_char]
          cases hc : createVal env (tierAuth env w) <;>
            simp [hsid, hse, hs, hc, storeSheetIdW_trace, eAW_trace, addTrace_trace]
        · simp [hsid, hse, strTruthy]
        · simp [hncv]
        · simp only [hsm, hs]
          simp [hncv]
        · intro sid h1 h2; exact absurd h2 hncv
        · intro sid h1 h2
          rw [hsm, hs] at h2
          exact absurd h2 (by simp)
    · cases hv : verifyVal env (tierAuth env w) sid0 with
      | ok u =>
        have hcvt : cacheVerified env w := by
          rw [hcv]; exact ⟨sid0, hsid, hse, by rw [hv]⟩
        refine ⟨[Tier.verifyT], ?_, by decide, ?_, ?_, ?_, ?_, ?_⟩
        · rw [initializeSheet_char]
          simp [hsid, hse, hv, eAW_trace, addTrace_trace]
        · simp [hsid, strTruthy, hse]
        · simp [hcvt]
        · simp [hcvt]
        · intro sid h1 h2
          cases h1
          rw [initializeSheet_char]
          simp [hsid, hse, hv]
        · intro sid h1 h2; exact absurd hcvt h1
      | error ev =>
        have hncv : ¬ cacheVerified env w := by
          rw [hcv]
          rintro ⟨sid, h1, -, h2⟩
          rw [hsid] at h1
          cases h1
          rw [hv] at h2
          exact Except.noConfusion h2
        cases hs : searchVal env (tierAuth env w) with
        | ok o =>
          cases o with
          | some sid' =>
            refine ⟨[Tier.verifyT, Tier.searchT], ?_, by decide, ?_, ?_, ?_, ?_, ?_⟩
            · rw [initializeSheet_char]
              simp [hsid, hse, hv, hs, storeSheetIdW_trace, eAW_trace, addTrace_trace]
            · simp [hsid, strTruthy, hse]
            · simp [hncv]
            · simp only [hsm, hs]
              simp [hncv]
            · intro sid h1 h2; exact absurd h2 hncv
            · intro sid h1 h2
              rw [hsm, hs] at h2
              rw [initializeSheet_char]
              simp only [hsid, if_neg hse, hv, hs]
              simp at h2
              simp [h2]
          | none =>
            refine ⟨[Tier.verifyT, Tier.searchT, Tier.createT], ?_, by decide, ?_, ?_, ?_, ?_, ?_⟩
            · rw [initializeSheet_char]
              cases hc : createVal env (tierAuth env w) <;>
                simp [hsid, hse, hv, hs, hc, storeSheetIdW_trace, eAW_trace, addTrace_trace]
            · simp [hsid, strTruthy, hse]
            · simp [hncv]
            · simp only [hsm, hs]
              simp [hncv]
            · intro sid h1 h2; exact absurd h2 hncv
            · intro sid h1 h2
              rw [hsm, hs] at h2
              exact absurd h2 (by simp)
        | error es =>
          refine ⟨[Tier.verifyT, Tier.searchT, Tier.createT], ?_, by decide, ?_, ?_, ?_, ?_, ?_⟩
          · rw [initializeSheet_char]
            cases hc : createVal env (tierAuth env w) <;>
              simp [hsid, hse, hv, hs, hc, storeSheetIdW_trace, eAW_trace, addTrace_trace]
          · simp [hsid, strTruthy, hse]
          · simp [hncv]
          · simp only [hsm, hs]
            simp [hncv]
          · intro sid h1 h2; exact absurd h2 hncv
          · intro sid h1 h2
            rw [hsm, hs] at h2
            exact absurd h2 (by simp)

/-- C2 (amended): failure policy of the resolver: (1) a tier-1
verification failure is swallowed — if the search finds a match the
resolver still succeeds; (2) a tier-2 search failure is ALSO swallowed
and falls through to creation (the correction to the claim: the
resolver then returns exactly what `createSheet` produces); (3) every
rejection of the resolver is a tier-3 (creation) failure, surfaced
verbatim, and only after tiers 1 and 2 produced nothing; (4) when the
remote create call rejects with `ev`, the surfaced rejection carries
the normalized message `Failed to create sheet: <msg(ev)>`. -/
theorem initializeSheet_failure_policy (env : Env) (w : World) :
    (∀ sid0 sid, w.store.sheetId = some sid0 →
       (verifySheetExists sid0 env w).1 ≠ .ok () →
       searchMatchOf env w = some sid →
       (initializeSheet env w).1 = .ok sid) ∧
    (searchFails env w → ¬ cacheVerified env w →
       (initializeSheet env w).1 = (createSheet env w).1) ∧
    (∀ e, (initializeSheet env w).1 = .error e →
       ¬ cacheVerified env w ∧ searchMatchOf env w = none ∧
       (createSheet env w).1 = .error e) ∧
    (∀ ev m, env.createResult = .error ev → extractErrorMessage ev = .ok m →
       tierAuth env w ≠ none →
       (createSheet env w).1 = .error (jsError ("Failed to create sheet: " ++ jsToString m))) := by
  have hsm := searchMatchOf_eq env w
  have hcv := cacheVerified_iff env w
  refine ⟨?_, ?_, ?_, ?_⟩
  · intro sid0 sid h0 hvfail hmatch
    rw [verifySheetExists_char] at hvfail
    rw [hsm] at hmatch
    rw [initializeSheet_char]
    by_cases hse : sid0 = ""
    · cases hs : searchVal env (tierAuth env w) with
      | error es => rw [hs] at hmatch; exact absurd hmatch (by simp)
      | ok o =>
        cases o with
        | none => rw [hs] at hmatch; exact absurd hmatch (by simp)
        | some sid' =>
          rw [hs] at hmatch
          simp at hmatch
          simp [h0, hse, hs, hmatch]
    · cases hv : verifyVal env (tierAuth env w) sid0 with
      | ok u => exact absurd (by rw [hv]) hvfail
      | error ev =>
        cases hs : searchVal env (tierAuth env w) with
        | error es => rw [hs] at hmatch; exact absurd hmatch (by simp)
        | ok o =>
          cases o with
          | none => rw [hs] at hmatch; exact absurd hmatch (by simp)
          | some sid' =>
            rw [hs] at hmatch
            simp at hmatch
            simp [h0, hse, hv, hs, hmatch]
  · intro hsf hncv
    obtain ⟨es, hs⟩ := hsf
    rw [findExistingSheet_char] at hs
    dsimp only at hs
    rw [initializeSheet_char, createSheet_char]
    cases hsid : w.store.sheetId with
    | none => simp [hs]
    | some sid0 =>
      by_cases hse : sid0 = ""
      · simp [hse, hs]
      · cases hv : verifyVal env (tierAuth env w) sid0 with
        | ok u =>
          exact absurd (hcv.mpr ⟨sid0, hsid, hse, by rw [hv]⟩) hncv
        | error ev => simp [hse, hv, hs]
  · intro e he
    rw [initializeSheet_char] at he
    rw [createSheet_char]
    cases hsid : w.store.sheetId with
    | none =>
      rw [hsid] at he
      cases hs : searchVal env (tierAuth env w) with
      | error es =>
        rw [hs] at he
        simp at he
        refine ⟨?_, by rw [hsm, hs], by rw [he]⟩
        rw [hcv]; rintro ⟨sid, h1, -⟩; rw [hsid] at h1; exact Option.noConfusion h1
      | ok o =>
        cases o with
        | some sid' => rw [hs] at he; simp at he
        | none =>
          rw [hs] at he
          simp at he
          refine ⟨?_, by rw [hsm, hs], by rw [he]⟩
          rw [hcv]; rintro ⟨sid, h1, -⟩; rw [hsid] at h1; exact Option.noConfusion h1
    | some sid0 =>
      rw [hsid] at he
      dsimp only at he
      by_cases hse : sid0 = ""
      · rw [if_pos hse] at he
        have hncv : ¬ cacheVerified env w := by
          rw [hcv]
          rintro ⟨sid, h1, hne, -⟩
          rw [hsid] at h1
          cases h1
          exact hne hse
        cases hs : searchVal env (tierAuth env w) with
        | error es =>
          rw [hs] at he
          simp at he
          exact ⟨hncv, by rw [hsm, hs], by rw [he]⟩
        | ok o =>
          cases o with
          | some sid' => rw [hs] at he; simp at he
          | none =>
            rw [hs] at he
            simp at he
            exact ⟨hncv, by rw [hsm, hs], by rw [he]⟩
      · rw [if_neg hse] at he
        cases hv : verifyVal env (tierAuth env w) sid0 with
        | ok u => rw [hv] at he; simp at he
        | error ev =>
          rw [hv] at he
          have hncv : ¬ cacheVerified env w := by
            rw [hcv]
            rintro ⟨sid, h1, -, h2⟩
            rw [hsid] at h1
            cases h1
            rw [hv] at h2
            exact Except.noConfusion h2
          cases hs : searchVal env (tierAuth env w) with
          | error es =>
            rw [hs] at he
            simp at he
            exact ⟨hncv, by rw [hsm, hs], by rw [he]⟩
          | ok o =>
            cases o with
            | some sid' => rw [hs] at he; simp at he
            | none =>
              rw [hs] at he
              simp at he
              exact ⟨hncv, by rw [hsm, hs], by rw [he]⟩
  · intro ev m hcr hex hta
    rw [createSheet_char]
    cases hA : tierAuth env w with
    | none => exact absurd hA hta
    | some t => simp [createVal, hcr, normalizedError, hex]

/-- A world with no cached sheet handle. -/
def wNoCache : World :=
  { baseWorld with store := { baseWorld.store with sheetId := none } }

/-- C1 (witness): the amended ordering theorem at a concrete input
where the cached handle fails verification and the remote search finds
a match: the resolver returns the found handle. -/
theorem initializeSheet_tier_order_witness :
    (initializeSheet
      { baseEnv with verifyResult := fun _ => .error (jsError "boom"),
                     driveListResult := .ok (some ["FOUND"]) } baseWorld).1
      = .ok "FOUND" := by
  obtain ⟨t, -, -, -, -, -, -, h7⟩ := initializeSheet_tier_order
    { baseEnv with verifyResult := fun _ => .error (jsError "boom"),
                   driveListResult := .ok (some ["FOUND"]) } baseWorld
  refine h7 "FOUND" ?_ rfl
  rintro ⟨sid, h1, -, h2⟩
  cases h1
  rw [show (verifySheetExists "SID"
      { baseEnv with verifyResult := fun _ => .error (jsError "boom"),
                     driveListResult := .ok (some ["FOUND"]) } baseWorld).1
    = .error (jsError "Sheet not found or not accessible (SID): boom") from rfl] at h2
  exact Except.noConfusion h2

/-- C1 (counterexample): as stated ("only when the search completes
with no match is creation invoked"), the claim is false: with no cached
handle, a search that FAILS (rather than completing with no match)
still leads to creation — `createSheet` is invoked (it appears in the
trace) and its result is returned. -/
theorem initializeSheet_tier_order_cx :
    Tier.createT ∈ (initializeSheet
      { baseEnv with driveListResult := .error (jsError "drive down") } wNoCache).2.trace ∧
    (findExistingSheet
      { baseEnv with driveListResult := .error (jsError "drive down") } wNoCache).1
      = .error (jsError "Failed to search for existing sheet: drive down") ∧
    (initializeSheet
      { baseEnv with driveListResult := .error (jsError "drive down") } wNoCache).1
      = .ok "NEW" := by
  refine ⟨?_, rfl, rfl⟩
  rw [show (initializeSheet
      { baseEnv with driveListResult := .error (jsError "drive down") } wNoCache).2.trace
    = [Tier.searchT, Tier.createT] from rfl]
  decide

/-- C2 (witness): the amended failure-policy theorem at a concrete
input where the search fails and creation also fails: the resolver
rejects with exactly `createSheet`'s normalized error. -/
theorem initializeSheet_failure_policy_witness :
    (initializeSheet
      { baseEnv with driveListResult := .error (jsError "sboom"),
                     createResult := .error (jsError "cboom") } wNoCache).1
      = (createSheet
      { baseEnv with driveListResult := .error (jsError "sboom"),
                     createResult := .error (jsError "cboom") } wNoCache).1 ∧
    (createSheet
      { baseEnv with driveListResult := .error (jsError "sboom"),
                     createResult := .error (jsError "cboom") } wNoCache).1
      = .error (jsError "Failed to create sheet: cboom") := by
  refine ⟨?_, rfl⟩
  refine (initializeSheet_failure_policy _ _).2.1 ?_ ?_
  · exact ⟨jsError "Failed to search for existing sheet: sboom", rfl⟩
  · rintro ⟨sid, h1, -⟩
    exact Option.noConfusion h1

/-- C2 (counterexample): as stated ("any failure in tier 2 is fatal and
surfaced to the caller; a tier-2 search failure does not fall through
to creation"), the claim is false: with a cached handle that fails
verification and a search call that rejects, the resolver nevertheless
RESOLVES with the id of a freshly created sheet and persists it. -/
theorem initializeSheet_failure_policy_cx :
    (findExistingSheet
      { baseEnv with verifyResult := fun _ => .error (jsError "vboom"),
                     driveListResult := .error (jsError "sboom"),
                     createResult := .ok (some "NEW2") } baseWorld).1
      = .error (jsError "Failed to search for existing sheet: sboom") ∧
    (initializeSheet
      { baseEnv with verifyResult := fun _ => .error (jsError "vboom"),
                     driveListResult := .error (jsError "sboom"),
                     createResult := .ok (some "NEW2") } baseWorld).1
      = .ok "NEW2" ∧
    (initializeSheet
      { baseEnv with verifyResult := fun _ => .error (jsError "vboom"),
                     driveListResult := .error (jsError "sboom"),
                     createResult := .ok (some "NEW2") } baseWorld).2.store.sheetId
      = some "NEW2" :=
  ⟨rfl, rfl, rfl⟩

/-- Empty-string optional fields read back as absent. -/
def normStr : Option String → Option String
  | some s => if s = "" then none else some s
  | none => none

/-- Numeric fields read back through cell serialisation and
`parseFloat`. -/
def normNum : Option JsNumber → Option JsNumber
  | some x => some (jsParseFloat (jsNumToString x))
  | none => none

theorem padZeroLeft_length (n : Nat) (s : String) :
    (padZeroLeft n s).length = (n - s.length) + s.length := by
  simp [padZeroLeft]

theorem ratToJsString_ne_empty (q : Rat) : ratToJsString q ≠ "" := by
  unfold ratToJsString
  by_cases h0 : q.num = 0
  · simp [h0]
  · simp only [h0, if_false, ite_false]
    cases hk : ratDecExp q with
    | none => simp
    | some k =>
      intro hc
      have hlen := congrArg String.length hc
      by_cases hk0 : k = 0
      · simp only [hk0, if_pos rfl, ite_true] at hlen
        simp [String.length_append, padZeroLeft_length] at hlen
        omega
      · simp only [hk0, if_false, ite_false] at hlen
        simp [String.length_append] at hlen
        have hdot : ("." : String).length = 1 := rfl
        omega

theorem jsNumToString_ne_empty (x : JsNumber) : jsNumToString x ≠ "" := by
  cases x with
  | nan => decide
  | inf => decide
  | negInf => decide
  | val q => exact ratToJsString_ne_empty q

theorem cellToString_str (s : String) : cellToString (.str s) = s := rfl

theorem normStr_getD (o : Option String) :
    (if o.getD "" = "" then none else some (o.getD "")) = normStr o := by
  cases o with
  | none => simp [normStr]
  | some s =>
    by_cases h : s = "" <;> simp [normStr, h]

theorem normNum_shape (o : Option JsNumber) :
    (if cellToString (numOrEmptyCell o) = "" then none
     else some (jsParseFloat (cellToString (numOrEmptyCell o)))) = normNum o := by
  cases o with
  | none => simp [cellToString, numOrEmptyCell, normNum]
  | some x => simp [cellToString, numOrEmptyCell, normNum, jsNumToString_ne_empty x]

/-- `normalizeFarmacia`: what a `Farmacia` becomes after the positional
write/read round-trip. -/
def normalizeFarmacia (f : Farmacia) : Farmacia :=
  { id := f.id, createdAt := f.createdAt
    email := normStr f.email, phone := normStr f.phone
    territorio := normStr f.territorio, pais := normStr f.pais
    estado := normStr f.estado, municipio := normStr f.municipio
    colonia := normStr f.colonia, calle := normStr f.calle
    estatus := normStr f.estatus, codigoPostal := normStr f.codigoPostal
    ruta := normStr f.ruta, nombreCuenta := normStr f.nombreCuenta
    plantillaClientes := normStr f.plantillaClientes
    folioTienda := normStr f.folioTienda
    cedulaProfesional := normStr f.cedulaProfesional
    grupoCadena := normStr f.grupoCadena, especialidad := normStr f.especialidad
    categoriaMedico := normStr f.categoriaMedico
    propietarioCuenta := normStr f.propietarioCuenta
    lat := normNum f.lat, lng := normNum f.lng
    googleMapsUrl := normStr f.googleMapsUrl, nombreBrick := normStr f.nombreBrick }

/-- `normalizeMedico`. -/
def normalizeMedico (m : Medico) : Medico :=
  { id := m.id, createdAt := m.createdAt
    email := normStr m.email, phone := normStr m.phone
    estado := normStr m.estado, ciudad := normStr m.ciudad
    colonia := normStr m.colonia, calle := normStr m.calle
    estatus := normStr m.estatus, codigoPostal := normStr m.codigoPostal
    nombreCuenta := normStr m.nombreCuenta, especialidad := normStr m.especialidad
    nombreBrick := normStr m.nombreBrick
    lat := normNum m.lat, lng := normNum m.lng
    googleMapsUrl := normStr m.googleMapsUrl }

/-- Row round-trip for the farmacias partition. -/
theorem rowToFarmacia_roundtrip (f : Farmacia) :
    rowToFarmacia ((farmaciaToRow f).map cellToString) = normalizeFarmacia f := by
  simp [farmaciaToRow, List.map, rowToFarmacia, normalizeFarmacia, cellAt, optStrAt,
    optNumAt, List.getD, orEmptyCell, cellToString_str, normStr_getD, normNum_shape]

/-- Row round-trip for the medicos partition. -/
theorem rowToMedico_roundtrip (m : Medico) :
    rowToMedico ((medicoToRow m).map cellToString) = normalizeMedico m := by
  simp [medicoToRow, List.map, rowToMedico, normalizeMedico, cellAt, optStrAt,
    optNumAt, List.getD, orEmptyCell, cellToString_str, normStr_getD, normNum_shape]

/-- The synthesised id `<ts36>-<rand>` is never empty. -/
theorem generateId_ne_empty (env : Env) : generateId env ≠ "" := by
  unfold generateId
  intro hc
  have hlen := congrArg String.length hc
  simp [String.length_append] at hlen
  have hdash : ("-" : String).length = 1 := rfl
  omega

/-- The synthesised ISO timestamp is never empty. -/
theorem toISOString_ne_empty (ms : Nat) : toISOString ms ≠ "" := by
  unfold toISOString
  intro hc
  have hlen := congrArg String.length hc
  simp [String.length_append] at hlen
  have hz : ("Z" : String).length = 1 := rfl
  omega

/-- `readFarmacias` under a valid session and a truthy (non-empty)
cached, verifiable handle: returns the mapped rows. -/
theorem readFarmacias_ok (env : Env) (w : World) (sid tok : String)
    (hsid : w.store.sheetId = some sid) (hne : sid ≠ "")
    (hta : tierAuth env w = some tok)
    (h8 : env.verifyResult sid = .ok ()) (h10 : env.valuesGetResult = .ok ()) :
    readFarmacias env w
      = (.ok ((w.sheet.farmaciasRows.map (fun r => r.map cellToString)).map rowToFarmacia),
         ensureAuthWorld env (w.addTrace .verifyT)) := by
  have hverify : verifyVal env (tierAuth env w) sid = .ok () := by
    rw [hta]; simp [verifyVal, h8]
  have hinit : initializeSheet env w
      = (.ok sid, ensureAuthWorld env (w.addTrace .verifyT)) := by
    rw [initializeSheet_char, hsid]
    dsimp only
    rw [if_neg hne, hverify]
  have hta1 : tierAuth env (ensureAuthWorld env (w.addTrace .verifyT)) = some tok := by
    rw [tierAuth_stable,
      tierAuth_congr env (w.addTrace .verifyT) w (by simp [World.authView, World.addTrace]),
      hta]
  have hens1 : ensureAuthenticated env (ensureAuthWorld env (w.addTrace .verifyT))
      = (.ok (), ensureAuthWorld env (w.addTrace .verifyT)) := by
    rw [ensureAuthenticated_char, hta1, ensureAuthWorld_idem]
  unfold readFarmacias
  rw [hinit]
  dsimp only
  rw [hens1]
  dsimp only
  rw [h10]
  dsimp only
  rw [show (ensureAuthWorld env (w.addTrace .verifyT)).sheet = w.sheet from eAW_sheet env _]

/-- `readMedicos` under a valid session and a truthy (non-empty)
cached, verifiable handle. -/
theorem readMedicos_ok (env : Env) (w : World) (sid tok : String)
    (hsid : w.store.sheetId = some sid) (hne : sid ≠ "")
    (hta : tierAuth env w = some tok)
    (h8 : env.verifyResult sid = .ok ()) (h10 : env.valuesGetResult = .ok ()) :
    readMedicos env w
      = (.ok ((w.sheet.medicosRows.map (fun r => r.map cellToString)).map rowToMedico),
         ensureAuthWorld env (w.addTrace .verifyT)) := by
  have hverify : verifyVal env (tierAuth env w) sid = .ok () := by
    rw [hta]; simp [verifyVal, h8]
  have hinit : initializeSheet env w
      = (.ok sid, ensureAuthWorld env (w.addTrace .verifyT)) := by
    rw [initializeSheet_char, hsid]
    dsimp only
    rw [if_neg hne, hverify]
  have hta1 : tierAuth env (ensureAuthWorld env (w.addTrace .verifyT)) = some tok := by
    rw [tierAuth_stable,
      tierAuth_congr env (w.addTrace .verifyT) w (by simp [World.authView, World.addTrace]),
      hta]
  have hens1 : ensureAuthenticated env (ensureAuthWorld env (w.addTrace .verifyT))
      = (.ok (), ensureAuthWorld env (w.addTrace .verifyT)) := by
    rw [ensureAuthenticated_char, hta1, ensureAuthWorld_idem]
  unfold readMedicos
  rw [hinit]
  dsimp only
  rw [hens1]
  dsimp only
  rw [h10]
  dsimp only
  rw [show (ensureAuthWorld env (w.addTrace .verifyT)).sheet = w.sheet from eAW_sheet env _]

/-- `writeFarmacia` under a valid session and a truthy (non-empty)
cached, verifiable handle: returns the completed entity and appends
its row. -/
theorem writeFarmacia_ok (env : Env) (w : World) (sid tok : String)
    (hsid : w.store.sheetId = some sid) (hne : sid ≠ "")
    (hta : tierAuth env w = some tok)
    (h8 : env.verifyResult sid = .ok ()) (h9 : env.appendResult = .ok ())
    (p : FarmaciaInput) :
    writeFarmacia p env w
      = (.ok (completeFarmacia env p),
         { ensureAuthWorld env (w.addTrace .verifyT) with
             sheet := { (ensureAuthWorld env (w.addTrace .verifyT)).sheet with
               farmaciasRows := (ensureAuthWorld env (w.addTrace .verifyT)).sheet.farmaciasRows
                 ++ [farmaciaToRow (completeFarmacia env p)] } }) := by
  have hverify : verifyVal env (tierAuth env w) sid = .ok () := by
    rw [hta]; simp [verifyVal, h8]
  have hinit : initializeSheet env w
      = (.ok sid, ensureAuthWorld env (w.addTrace .verifyT)) := by
    rw [initializeSheet_char, hsid]
    dsimp only
    rw [if_neg hne, hverify]
  have hta1 : tierAuth env (ensureAuthWorld env (w.addTrace .verifyT)) = some tok := by
    rw [tierAuth_stable,
      tierAuth_congr env (w.addTrace .verifyT) w (by simp [World.authView, World.addTrace]),
      hta]
  have hens1 : ensureAuthenticated env (ensureAuthWorld env (w.addTrace .verifyT))
      = (.ok (), ensureAuthWorld env (w.addTrace .verifyT)) := by
    rw [ensureAuthenticated_char, hta1, ensureAuthWorld_idem]
  unfold writeFarmacia
  rw [hinit]
  dsimp only
  rw [hens1]
  dsimp only
  rw [h9]

/-- `writeMedico` under a valid session and a truthy (non-empty)
cached, verifiable handle. -/
theorem writeMedico_ok (env : Env) (w : World) (sid tok : String)
    (hsid : w.store.sheetId = some sid) (hne : sid ≠ "")
    (hta : tierAuth env w = some tok)
    (h8 : env.verifyResult sid = .ok ()) (h9 : env.appendResult = .ok ())
    (p : MedicoInput) :
    writeMedico p env w
      = (.ok (completeMedico env p),
         { ensureAuthWorld env (w.addTrace .verifyT) with
             sheet := { (ensureAuthWorld env (w.addTrace .verifyT)).sheet with
               medicosRows := (ensureAuthWorld env (w.addTrace .verifyT)).sheet.medicosRows
                 ++ [medicoToRow (completeMedico env p)] } }) := by
  have hverify : verifyVal env (tierAuth env w) sid = .ok () := by
    rw [hta]; simp [verifyVal, h8]
  have hinit : initializeSheet env w
      = (.ok sid, ensureAuthWorld env (w.addTrace .verifyT)) := by
    rw [initializeSheet_char, hsid]
    dsimp only
    rw [if_neg hne, hverify]
  have hta1 : tierAuth env (ensureAuthWorld env (w.addTrace .verifyT)) = some tok := by
    rw [tierAuth_stable,
      tierAuth_congr env (w.addTrace .verifyT) w (by simp [World.authView, World.addTrace]),
      hta]
  have hens1 : ensureAuthenticated env (ensureAuthWorld env (w.addTrace .verifyT))
      = (.ok (), ensureAuthWorld env (w.addTrace .verifyT)) := by
    rw [ensureAuthenticated_char, hta1, ensureAuthWorld_idem]
  unfold writeMedico
  rw [hinit]
  dsimp only
  rw [hens1]
  dsimp only
  rw [h9]

/-- Replacing the sheet contents does not affect the auth outcome. -/
theorem tierAuth_sheetUpdate (env : Env) (w : World) (sh : SheetData) :
    tierAuth env { w with sheet := sh } = tierAuth env w :=
  tierAuth_congr env { w with sheet := sh } w rfl

/-- A numeric field value survives the cell round-trip. -/
def numSerializes : Option JsNumber → Prop
  | none => True
  | some x => jsParseFloat (jsNumToString x) = x

/-- C9 (amended): for both variants, under a valid session and a
truthy (non-empty) cached verifiable handle, `append`
(writeFarmacia/writeMedico) returns
the completed entity, whose `id` and `createdAt` are both non-empty,
and a subsequent `readAll` of the same variant yields the previous
entities followed by the appended entity with each empty-string
optional field normalised to absent and each numeric field re-parsed
from its cell rendering — so the read-back entity is identical to the
appended one except that empty-string optional fields come back absent
(the correction to the claim); numeric fields are unchanged whenever
they survive the decimal cell serialisation. -/
theorem append_readAll_roundtrip (env : Env) (w : World)
    (tok es sid : String) (x : Int)
    (h1 : w.store.accessToken = some tok) (h2 : tok ≠ "")
    (h3 : w.store.expiresAt = some es) (h4 : es ≠ "")
    (h5 : parseIntJs es = some x) (h6 : (env.now : Int) < x)
    (h7 : w.store.sheetId = some sid) (h7n : sid ≠ "")
    (h8 : env.verifyResult sid = .ok ())
    (h9 : env.appendResult = .ok ()) (h10 : env.valuesGetResult = .ok ()) :
    (∀ p : FarmaciaInput,
      (writeFarmacia p env w).1 = .ok (completeFarmacia env p) ∧
      (completeFarmacia env p).id ≠ "" ∧
      (completeFarmacia env p).createdAt ≠ "" ∧
      (readFarmacias env (writeFarmacia p env w).2).1
        = .ok (((w.sheet.farmaciasRows.map (fun r => r.map cellToString)).map rowToFarmacia)
            ++ [normalizeFarmacia (completeFarmacia env p)]) ∧
      (numSerializes p.lat → (normalizeFarmacia (completeFarmacia env p)).lat = p.lat) ∧
      (numSerializes p.lng → (normalizeFarmacia (completeFarmacia env p)).lng = p.lng)) ∧
    (∀ q : MedicoInput,
      (writeMedico q env w).1 = .ok (completeMedico env q) ∧
      (completeMedico env q).id ≠ "" ∧
      (completeMedico env q).createdAt ≠ "" ∧
      (readMedicos env (writeMedico q env w).2).1
        = .ok (((w.sheet.medicosRows.map (fun r => r.map cellToString)).map rowToMedico)
            ++ [normalizeMedico (completeMedico env q)]) ∧
      (numSerializes q.lat → (normalizeMedico (completeMedico env q)).lat = q.lat) ∧
      (numSerializes q.lng → (normalizeMedico (completeMedico env q)).lng = q.lng)) := by
  have hta : tierAuth env w = some tok := by
    unfold tierAuth authOkOf authVal
    simp [h1, h3, h2, h4, nowBeforeExpiry, h5, h6]
  constructor
  · intro p
    rw [writeFarmacia_ok env w sid tok h7 h7n hta h8 h9 p]
    dsimp only
    refine ⟨rfl, generateId_ne_empty env, toISOString_ne_empty env.now, ?_, ?_, ?_⟩
    · have hsid2 : ({ ensureAuthWorld env (w.addTrace .verifyT) with
          sheet := { (ensureAuthWorld env (w.addTrace .verifyT)).sheet with
            farmaciasRows := (ensureAuthWorld env (w.addTrace .verifyT)).sheet.farmaciasRows
              ++ [farmaciaToRow (completeFarmacia env p)] } } : World).store.sheetId
          = some sid := by
        show (ensureAuthWorld env (w.addTrace .verifyT)).store.sheetId = some sid
        rw [eAW_sheetId]
        exact h7
      have hta2 : tierAuth env ({ ensureAuthWorld env (w.addTrace .verifyT) with
          sheet := { (ensureAuthWorld env (w.addTrace .verifyT)).sheet with
            farmaciasRows := (ensureAuthWorld env (w.addTrace .verifyT)).sheet.farmaciasRows
              ++ [farmaciaToRow (completeFarmacia env p)] } } : World) = some tok := by
        rw [tierAuth_sheetUpdate]
        rw [tierAuth_stable,
          tierAuth_congr env (w.addTrace .verifyT) w (by simp [World.authView, World.addTrace]),
          hta]
      rw [readFarmacias_ok env _ sid tok hsid2 h7n hta2 h8 h10]
      dsimp only
      rw [show (ensureAuthWorld env (w.addTrace .verifyT)).sheet = w.sheet from eAW_sheet env _]
      simp [List.map_append, rowToFarmacia_roundtrip]
    · intro hser
      cases hp : p.lat with
      | none => simp [normalizeFarmacia, completeFarmacia, normNum, hp]
      | some x' =>
        rw [hp] at hser
        simp [normalizeFarmacia, completeFarmacia, normNum, hp, hser]
        exact hser
    · intro hser
      cases hp : p.lng with
      | none => simp [normalizeFarmacia, completeFarmacia, normNum, hp]
      | some x' =>
        rw [hp] at hser
        simp [normalizeFarmacia, completeFarmacia, normNum, hp, hser]
        exact hser
  · intro q
    rw [writeMedico_ok env w sid tok h7 h7n hta h8 h9 q]
    dsimp only
    refine ⟨rfl, generateId_ne_empty env, toISOString_ne_empty env.now, ?_, ?_, ?_⟩
    · have hsid2 : ({ ensureAuthWorld env (w.addTrace .verifyT) with
          sheet := { (ensureAuthWorld env (w.addTrace .verifyT)).sheet with
            medicosRows := (ensureAuthWorld env (w.addTrace .verifyT)).sheet.medicosRows
              ++ [medicoToRow (completeMedico env q)] } } : World).store.sheetId
          = some sid := by
        show (ensureAuthWorld env (w.addTrace .verifyT)).store.sheetId = some sid
        rw [eAW_sheetId]
        exact h7
      have hta2 : tierAuth env ({ ensureAuthWorld env (w.addTrace .verifyT) with
          sheet := { (ensureAuthWorld env (w.addTrace .verifyT)).sheet with
            medicosRows := (ensureAuthWorld env (w.addTrace .verifyT)).sheet.medicosRows
              ++ [medicoToRow (completeMedico env q)] } } : World) = some tok := by
        rw [tierAuth_sheetUpdate]
        rw [tierAuth_stable,
          tierAuth_congr env (w.addTrace .verifyT) w (by simp [World.authView, World.addTrace]),
          hta]
      rw [readMedicos_ok env _ sid tok hsid2 h7n hta2 h8 h10]
      dsimp only
      rw [show (ensureAuthWorld env (w.addTrace .verifyT)).sheet = w.sheet from eAW_sheet env _]
      simp [List.map_append, rowToMedico_roundtrip]
    · intro hser
      cases hq : q.lat with
      | none => simp [normalizeMedico, completeMedico, normNum, hq]
      | some x' =>
        rw [hq] at hser
        simp [normalizeMedico, completeMedico, normNum, hq, hser]
        exact hser
    · intro hser
      cases hq : q.lng with
      | none => simp [normalizeMedico, completeMedico, normNum, hq]
      | some x' =>
        rw [hq] at hser
        simp [normalizeMedico, completeMedico, normNum, hq, hser]
        exact hser

/-- A partial `Farmacia` whose only set field is an empty-string email
(plus a numeric latitude for the witness). -/
def pEmptyEmail : FarmaciaInput :=
  { email := some "", phone := none, territorio := none, pais := none,
    estado := none, municipio := none, colonia := none, calle := none,
    estatus := none, codigoPostal := none, ruta := none, nombreCuenta := none,
    plantillaClientes := none, folioTienda := none, cedulaProfesional := none,
    grupoCadena := none, especialidad := none, categoriaMedico := none,
    propietarioCuenta := none, lat := none, lng := none,
    googleMapsUrl := none, nombreBrick := none }

/-- A partial `Farmacia` with ordinary values (witness input). -/
def pPlain : FarmaciaInput :=
  { email := some "a@b.c", phone := none, territorio := none, pais := none,
    estado := none, municipio := none, colonia := none, calle := none,
    estatus := some "Activa", codigoPostal := none, ruta := none,
    nombreCuenta := none, plantillaClientes := none, folioTienda := none,
    cedulaProfesional := none, grupoCadena := none, especialidad := none,
    categoriaMedico := none, propietarioCuenta := none,
    lat := some (.val (Rat.divInt 3 2)), lng := some (.val (Rat.divInt 0 1)),
    googleMapsUrl := none, nombreBrick := none }

/-- C9 (witness): concrete run with ordinary values: the round-trip
entity is identical to the appended one, and `id`/`createdAt` are
non-empty. -/
theorem append_readAll_roundtrip_witness :
    (writeFarmacia pPlain baseEnv baseWorld).1 = .ok (completeFarmacia baseEnv pPlain) ∧
    (readFarmacias baseEnv (writeFarmacia pPlain baseEnv baseWorld).2).1
      = .ok [normalizeFarmacia (completeFarmacia baseEnv pPlain)] ∧
    normalizeFarmacia (completeFarmacia baseEnv pPlain) = completeFarmacia baseEnv pPlain ∧
    (completeFarmacia baseEnv pPlain).id ≠ "" ∧
    (completeFarmacia baseEnv pPlain).createdAt ≠ "" := by
  obtain ⟨hf, -⟩ := append_readAll_roundtrip baseEnv baseWorld "T" "100" "SID" 100
    rfl (by decide) rfl (by decide) (by decide) (by decide) rfl (by decide) rfl rfl rfl
  obtain ⟨hw, hid, hca, hread, -, -⟩ := hf pPlain
  exact ⟨hw, by simpa using hread, by decide, hid, hca⟩

/-- C9 (counterexample): as stated, the claim is false: appending a
partial farmacia whose `email` is the empty string returns an entity
with `email = some ""`, but the only matching entity a subsequent
`readFarmacias` yields has `email = none` — no entity in the read-back
sequence has field values identical to the appended entity. -/
theorem append_readAll_roundtrip_cx :
    (writeFarmacia pEmptyEmail baseEnv baseWorld).1
      = .ok (completeFarmacia baseEnv pEmptyEmail) ∧
    (completeFarmacia baseEnv pEmptyEmail).email = some "" ∧
    (readFarmacias baseEnv (writeFarmacia pEmptyEmail baseEnv baseWorld).2).1
      = .ok [normalizeFarmacia (completeFarmacia baseEnv pEmptyEmail)] ∧
    (normalizeFarmacia (completeFarmacia baseEnv pEmptyEmail)).email = none ∧
    normalizeFarmacia (completeFarmacia baseEnv pEmptyEmail)
      ≠ completeFarmacia baseEnv pEmptyEmail := by
  obtain ⟨hf, -⟩ := append_readAll_roundtrip baseEnv baseWorld "T" "100" "SID" 100
    rfl (by decide) rfl (by decide) (by decide) (by decide) rfl (by decide) rfl rfl rfl
  obtain ⟨hw, -, -, hread, -, -⟩ := hf pEmptyEmail
  exact ⟨hw, rfl, by simpa using hread, rfl, by decide⟩

/-- C10 (amended): for every range-read row and both variants, a
numeric field (`lat`/`lng`) is `undefined` exactly when its cell is
absent or the empty string; any other cell yields
`parseFloat(cell)` — the parsed number for a parseable cell, but `NaN`
(not `undefined`) for a non-empty unparseable cell, which is the
correction to the claim. -/
theorem rowTo_numeric_parse (row : List String) :
    ((cellAt row 21 = "" → (rowToFarmacia row).lat = none) ∧
     (cellAt row 21 ≠ "" → (rowToFarmacia row).lat = some (jsParseFloat (cellAt row 21)))) ∧
    ((cellAt row 22 = "" → (rowToFarmacia row).lng = none) ∧
     (cellAt row 22 ≠ "" → (rowToFarmacia row).lng = some (jsParseFloat (cellAt row 22)))) ∧
    ((cellAt row 13 = "" → (rowToMedico row).lat = none) ∧
     (cellAt row 13 ≠ "" → (rowToMedico row).lat = some (jsParseFloat (cellAt row 13)))) ∧
    ((cellAt row 14 = "" → (rowToMedico row).lng = none) ∧
     (cellAt row 14 ≠ "" → (rowToMedico row).lng = some (jsParseFloat (cellAt row 14)))) := by
  refine ⟨⟨?_, ?_⟩, ⟨?_, ?_⟩, ⟨?_, ?_⟩, ⟨?_, ?_⟩⟩ <;>
    intro h <;> simp [rowToFarmacia, rowToMedico, optNumAt, h]

/-- C10 (witness): the amended theorem at concrete rows: a parseable
cell `"1.5"` parses to 3/2, and an absent cell reads as `undefined`. -/
theorem rowTo_numeric_parse_witness :
    (rowToFarmacia (List.replicate 21 "" ++ ["1.5"])).lat
      = some (jsParseFloat (cellAt (List.replicate 21 "" ++ ["1.5"]) 21)) ∧
    jsParseFloat (cellAt (List.replicate 21 "" ++ ["1.5"]) 21) = JsNumber.val (Rat.divInt 3 2) ∧
    (rowToFarmacia []).lat = none :=
  ⟨((rowTo_numeric_parse (List.replicate 21 "" ++ ["1.5"])).1.2 (by decide)),
   by decide,
   ((rowTo_numeric_parse []).1.1 rfl)⟩

/-- C10 (counterexample): as stated, the claim is false: the
unparseable non-empty cell `"abc"` yields `lat = some NaN`, not
`undefined`. -/
theorem rowTo_numeric_parse_cx :
    jsParseFloat "abc" = JsNumber.nan ∧
    cellAt (List.replicate 21 "" ++ ["abc"]) 21 = "abc" ∧
    (rowToFarmacia (List.replicate 21 "" ++ ["abc"])).lat = some JsNumber.nan ∧
    ¬ (∀ row : List String, jsParseFloat (cellAt row 21) = JsNumber.nan →
        (rowToFarmacia row).lat = none) := by
  refine ⟨by decide, by decide, by decide, ?_⟩
  intro hall
  have h := hall (List.replicate 21 "" ++ ["abc"]) (by decide)
  rw [show (rowToFarmacia (List.replicate 21 "" ++ ["abc"])).lat = some JsNumber.nan
    by decide] at h
  exact Option.noConfusion h
